import Mathlib

/-!
Shallow embedding of the MBD-Designer architecture rendering pipeline
(`src/app.py`): the identifier/label sanitizers, the JSON-structure
validator, the Mermaid diagram renderer, the MATLAB build-script
renderer, and the AI-response retry loop, together with theorems
settling the specification claims about them.

JSON values are modelled by the inductive type `Jval` (numbers as
integers; no claim depends on non-integral numerics).  Python's
`datetime.now()` is modelled by threading an explicit `now : String`
parameter into every function that reads the clock, so that purity and
determinism questions become questions about dependence on that
parameter.  Python's `hashlib.md5(...).hexdigest()` is modelled by a
full executable MD5 implementation (`md5hex`) so that hash-fallback
identifiers evaluate to the same strings the program produces.
-/

set_option maxRecDepth 10000

namespace MBD

/-! ## JSON value model -/

/-! JSON-like Python value as produced by `json.loads`: objects keep key
insertion order, numbers are modelled as integers.  Arrays and objects
carry their own list types (`JArr`, `JObj`) so that functions recursing
into elements are structurally recursive and kernel-evaluable. -/

mutual

/-- JSON value. -/
inductive Jval where
  | null : Jval
  | bool : Bool → Jval
  | num : Int → Jval
  | str : String → Jval
  | arr : JArr → Jval
  | obj : JObj → Jval

inductive JArr where
  | nil : JArr
  | cons : Jval → JArr → JArr

inductive JObj where
  | nil : JObj
  | cons : String → Jval → JObj → JObj

end

/-- Build a `JArr` from a list. -/
def JArr.ofList : List Jval → JArr
  | [] => .nil
  | v :: vs => .cons v (JArr.ofList vs)

/-- List of elements of a `JArr`. -/
def JArr.toList : JArr → List Jval
  | .nil => []
  | .cons v vs => v :: vs.toList

/-- Build a `JObj` from an association list (insertion order kept). -/
def JObj.ofList : List (String × Jval) → JObj
  | [] => .nil
  | (k, v) :: kvs => .cons k v (JObj.ofList kvs)

/-- Association list of a `JObj`. -/
def JObj.toList : JObj → List (String × Jval)
  | .nil => []
  | .cons k v kvs => (k, v) :: kvs.toList

/-- Array literal helper. -/
def jarr (xs : List Jval) : Jval := .arr (.ofList xs)

/-- Object literal helper. -/
def jobj (kvs : List (String × Jval)) : Jval := .obj (.ofList kvs)

/-- Equality of a Python value with a known string literal: true exactly
when the value is that string (Python `v == "lit"`). -/
def jeqStr (v : Jval) (s : String) : Bool :=
  match v with
  | .str t => t = s
  | _ => false

/-- Python truthiness (`bool(v)`): `None`, `False`, `0`, `""`, `[]`, `{}`
are falsy, everything else truthy. -/
def pyTruthy : Jval → Bool
  | .null => false
  | .bool b => b
  | .num n => n != 0
  | .str s => s != ""
  | .arr .nil => false
  | .arr _ => true
  | .obj .nil => false
  | .obj _ => true

/-- Dictionary lookup: first binding of key `k`. -/
def jlook (kvs : JObj) (k : String) : Option Jval :=
  match kvs with
  | .nil => none
  | .cons k1 v tl => if k1 = k then some v else jlook tl k

/-- Python `d.get(k, default)` on an object. -/
def jget (kvs : JObj) (k : String) (dflt : Jval) : Jval :=
  (jlook kvs k).getD dflt

/-- Membership test `k in d` for an object. -/
def jhas (kvs : JObj) (k : String) : Bool :=
  (jlook kvs k).isSome

/-- Python type name of a value, as it appears in error messages. -/
def pyTypeName : Jval → String
  | .null => "NoneType"
  | .bool _ => "bool"
  | .num _ => "int"
  | .str _ => "str"
  | .arr _ => "list"
  | .obj _ => "dict"

/-- Message of the `AttributeError` Python raises when a method such as
`.strip()` or `.get()` is called on a value of the wrong type. -/
def noAttrMsg (v : Jval) (attr : String) : String :=
  "'" ++ pyTypeName v ++ "' object has no attribute '" ++ attr ++ "'"

/-- Escaping of one character inside a Python string repr quoted by `q`. -/
def pyEscapeChar (q c : Char) : List Char :=
  if c = '\\' then ['\\', '\\']
  else if c = q then ['\\', q]
  else if c = '\n' then ['\\', 'n']
  else if c = '\r' then ['\\', 'r']
  else if c = '\t' then ['\\', 't']
  else [c]

/-- Python `repr` of a string: single-quoted unless the string holds a
single quote and no double quote (models CPython for the characters the
pipeline can meet). -/
def pyStrRepr (s : String) : String :=
  let q : Char := if s.toList.contains '\'' && !(s.toList.contains '"') then '"' else '\''
  String.mk (q :: s.toList.foldr (fun c acc => pyEscapeChar q c ++ acc) [q])

/-! Python `repr` of a value (used by `str` on lists and dictionaries). -/

mutual

/-- Python `repr` of a value. -/
def pyRepr : Jval → String
  | .null => "None"
  | .bool true => "True"
  | .bool false => "False"
  | .num n => toString n
  | .str s => pyStrRepr s
  | .arr xs => "[" ++ pyReprArr xs ++ "]"
  | .obj kvs => "\x7b" ++ pyReprObj kvs ++ "\x7d"

def pyReprArr : JArr → String
  | .nil => ""
  | .cons v .nil => pyRepr v
  | .cons v tl => pyRepr v ++ ", " ++ pyReprArr tl

def pyReprObj : JObj → String
  | .nil => ""
  | .cons k v .nil => pyStrRepr k ++ ": " ++ pyRepr v
  | .cons k v tl => pyStrRepr k ++ ": " ++ pyRepr v ++ ", " ++ pyReprObj tl

end

/-- Python `str(v)`: the string itself for strings, `repr` rendering for
containers, `None`/`True`/`False`/decimal for atoms. -/
def pyStr (v : Jval) : String :=
  match v with
  | .str s => s
  | v => pyRepr v

/-! ## MD5 (models Python's `hashlib.md5(...).hexdigest()`) -/

/-- Round constants `K[i] = floor(2^32 * |sin(i+1)|)` of MD5. -/
def md5K : List Nat :=
  [0xd76aa478, 0xe8c7b756, 0x242070db, 0xc1bdceee,
   0xf57c0faf, 0x4787c62a, 0xa8304613, 0xfd469501,
   0x698098d8, 0x8b44f7af, 0xffff5bb1, 0x895cd7be,
   0x6b901122, 0xfd987193, 0xa679438e, 0x49b40821,
   0xf61e2562, 0xc040b340, 0x265e5a51, 0xe9b6c7aa,
   0xd62f105d, 0x02441453, 0xd8a1e681, 0xe7d3fbc8,
   0x21e1cde6, 0xc33707d6, 0xf4d50d87, 0x455a14ed,
   0xa9e3e905, 0xfcefa3f8, 0x676f02d9, 0x8d2a4c8a,
   0xfffa3942, 0x8771f681, 0x6d9d6122, 0xfde5380c,
   0xa4beea44, 0x4bdecfa9, 0xf6bb4b60, 0xbebfbc70,
   0x289b7ec6, 0xeaa127fa, 0xd4ef3085, 0x04881d05,
   0xd9d4d039, 0xe6db99e5, 0x1fa27cf8, 0xc4ac5665,
   0xf4292244, 0x432aff97, 0xab9423a7, 0xfc93a039,
   0x655b59c3, 0x8f0ccc92, 0xffeff47d, 0x85845dd1,
   0x6fa87e4f, 0xfe2ce6e0, 0xa3014314, 0x4e0811a1,
   0xf7537e82, 0xbd3af235, 0x2ad7d2bb, 0xeb86d391]

/-- Per-round left-rotation amounts of MD5. -/
def md5S : List Nat :=
  [7, 12, 17, 22, 7, 12, 17, 22, 7, 12, 17, 22, 7, 12, 17, 22,
   5, 9, 14, 20, 5, 9, 14, 20, 5, 9, 14, 20, 5, 9, 14, 20,
   4, 11, 16, 23, 4, 11, 16, 23, 4, 11, 16, 23, 4, 11, 16, 23,
   6, 10, 15, 21, 6, 10, 15, 21, 6, 10, 15, 21, 6, 10, 15, 21]

/-- Left-rotation of a 32-bit word. -/
def rotl32 (x n : Nat) : Nat :=
  ((x <<< n) % 4294967296) ||| (x >>> (32 - n))

/-- Bitwise complement of a 32-bit word. -/
def not32 (x : Nat) : Nat := x ^^^ 0xffffffff

/-- One MD5 round: updates the state `(A, B, C, D)` at round `i` with
message-word accessor `M`. -/
def md5Round (M : Nat → Nat) (st : Nat × Nat × Nat × Nat) (i : Nat) :
    Nat × Nat × Nat × Nat :=
  let (A, B, C, D) := st
  let F :=
    if i < 16 then (B &&& C) ||| (not32 B &&& D)
    else if i < 32 then (D &&& B) ||| (not32 D &&& C)
    else if i < 48 then B ^^^ C ^^^ D
    else C ^^^ (B ||| not32 D)
  let g :=
    if i < 16 then i
    else if i < 32 then (5 * i + 1) % 16
    else if i < 48 then (3 * i + 5) % 16
    else (7 * i) % 16
  let F := (F + A + md5K.getD i 0 + M g) % 4294967296
  (D, (B + rotl32 F (md5S.getD i 0)) % 4294967296, B, C)

/-- Little-endian 32-bit word `j` of a 64-byte chunk. -/
def leWord (b : List Nat) (j : Nat) : Nat :=
  b.getD (4 * j) 0 + (b.getD (4 * j + 1) 0) <<< 8 +
    (b.getD (4 * j + 2) 0) <<< 16 + (b.getD (4 * j + 3) 0) <<< 24

/-- Process one 64-byte chunk of the padded message. -/
def md5Chunk (h : Nat × Nat × Nat × Nat) (chunk : List Nat) :
    Nat × Nat × Nat × Nat :=
  let (a0, b0, c0, d0) := h
  let (A, B, C, D) := (List.range 64).foldl (md5Round (leWord chunk)) (a0, b0, c0, d0)
  ((a0 + A) % 4294967296, (b0 + B) % 4294967296,
   (c0 + C) % 4294967296, (d0 + D) % 4294967296)

/-- Split a byte list into 64-byte chunks (fuel-structured so that the
kernel can evaluate it; the fuel is the list length, always enough). -/
def chunks64Go : Nat → List Nat → List (List Nat)
  | 0, _ => []
  | _, [] => []
  | fuel + 1, l => l.take 64 :: chunks64Go fuel (l.drop 64)

/-- Split a byte list into 64-byte chunks. -/
def chunks64 (l : List Nat) : List (List Nat) :=
  chunks64Go l.length l

/-- Little-endian byte expansion (`k` bytes of `n`). -/
def leBytes (k n : Nat) : List Nat :=
  (List.range k).map (fun i => (n >>> (8 * i)) &&& 0xff)

/-- MD5 padding: append `0x80`, zero bytes up to 56 mod 64, then the
64-bit little-endian bit length. -/
def md5Pad (msg : List Nat) : List Nat :=
  msg ++ [0x80] ++ List.replicate ((119 - msg.length % 64) % 64) 0 ++
    leBytes 8 (msg.length * 8)

/-- UTF-8 encoding of a character (as Python's `str.encode()`). -/
def utf8Char (c : Char) : List Nat :=
  let n := c.toNat
  if n < 0x80 then [n]
  else if n < 0x800 then [0xc0 ||| (n >>> 6), 0x80 ||| (n &&& 0x3f)]
  else if n < 0x10000 then
    [0xe0 ||| (n >>> 12), 0x80 ||| ((n >>> 6) &&& 0x3f), 0x80 ||| (n &&& 0x3f)]
  else
    [0xf0 ||| (n >>> 18), 0x80 ||| ((n >>> 12) &&& 0x3f),
     0x80 ||| ((n >>> 6) &&& 0x3f), 0x80 ||| (n &&& 0x3f)]

/-- UTF-8 bytes of a string. -/
def utf8Bytes (s : String) : List Nat :=
  s.toList.foldr (fun c acc => utf8Char c ++ acc) []

/-- Hexadecimal digit character. -/
def hexDigit (n : Nat) : Char :=
  if n < 10 then Char.ofNat (48 + n) else Char.ofNat (87 + n)

/-- Two-character lowercase hex rendering of a byte. -/
def byteHex (b : Nat) : List Char :=
  [hexDigit (b / 16), hexDigit (b % 16)]

/-- MD5 hex digest of a string, as `hashlib.md5(s.encode()).hexdigest()`. -/
def md5hex (s : String) : String :=
  let (a, b, c, d) :=
    (chunks64 (md5Pad (utf8Bytes s))).foldl md5Chunk
      (0x67452301, 0xefcdab89, 0x98badcfe, 0x10325476)
  String.mk ((leBytes 4 a ++ leBytes 4 b ++ leBytes 4 c ++ leBytes 4 d).foldr
    (fun x acc => byteHex x ++ acc) [])

/-! ## Python string primitives used by `app.py` -/

/-- Characters Python's default `str.strip()` removes: exactly the code
points on which `str.isspace()` holds — the ASCII whitespace characters
`\t \n \v \f \r` and space, the separator controls U+001C-U+001F, the
next-line character U+0085, the no-break space U+00A0, and the Unicode
space characters U+1680, U+2000-U+200A, U+2028, U+2029, U+202F, U+205F
and U+3000.  CPython's regex class `\s` on `str` patterns matches the
same set, so this predicate also serves the `\s*` in
`extract_json_from_text`. -/
def pySpace (c : Char) : Bool :=
  let n := c.toNat
  (9 ≤ n && n ≤ 13) || (28 ≤ n && n ≤ 32) || n = 133 || n = 160 ||
  n = 0x1680 || (0x2000 ≤ n && n ≤ 0x200A) || n = 0x2028 || n = 0x2029 ||
  n = 0x202F || n = 0x205F || n = 0x3000

/-- Python `text.strip()` with no argument. -/
def pyStrip (s : String) : String :=
  String.mk (((s.toList.dropWhile pySpace).reverse.dropWhile pySpace).reverse)

/-- Membership in the regex class `[a-zA-Z0-9_]`. -/
def isWordChar (c : Char) : Bool :=
  ('a' ≤ c && c ≤ 'z') || ('A' ≤ c && c ≤ 'Z') || ('0' ≤ c && c ≤ '9') || c = '_'

/-- Python `re.sub(r'[^a-zA-Z0-9_]', '', s)`. -/
def reSubNonWord (s : String) : String :=
  String.mk (s.toList.filter isWordChar)

/-- Python `re.sub(r'[^a-zA-Z0-9_/]', '', s)` (the build-script
connection cleaner, which keeps the `/` port separator). -/
def reSubNonWordSlash (s : String) : String :=
  String.mk (s.toList.filter (fun c => isWordChar c || c = '/'))

/-- Python `s.replace(a, b)` for one-character patterns (the only shape
the pipeline uses), kernel-evaluable. -/
def replaceChar (s : String) (a b : Char) : String :=
  String.mk (s.toList.map (fun c => if c = a then b else c))

/-- Python `s.replace(a, '')` for a one-character pattern. -/
def removeChar (s : String) (a : Char) : String :=
  String.mk (s.toList.filter (fun c => c != a))

/-- ASCII lower-casing of a character (`str.lower` on the identifiers
the pipeline compares against its ASCII keyword set). -/
def pyLowerChar (c : Char) : Char :=
  if 'A' ≤ c && c ≤ 'Z' then Char.ofNat (c.toNat + 32) else c

/-- Python `s.lower()` (ASCII range). -/
def pyLower (s : String) : String :=
  String.mk (s.toList.map pyLowerChar)

/-- Python `s.split('/')[0]`: the prefix before the first `/`. -/
def baseName (s : String) : String :=
  String.mk (s.toList.takeWhile (fun c => c != '/'))

/-! ## Sanitizers (`app.py` section 5) -/

/-- Mermaid reserved keywords of `app.py` line 131, with the letter case
used there (the five direction keywords are stored in upper case). -/
def MERMAID_KEYWORDS : List String :=
  ["end", "graph", "subgraph", "style", "class", "click", "call", "direction",
   "TB", "TD", "BT", "RL", "LR"]

/-- Embedding of `sanitize_id` (`app.py` lines 133-156).  `now` models the
string `str(datetime.now())` at the moment of the call: the function
hashes it when the input is empty or whitespace-only. -/
def sanitize_id (text : String) (now : String) : String :=
  if text = "" || pyStrip text = "" then
    "id_" ++ (md5hex now).take 8
  else
    let clean1 := reSubNonWord text
    let clean2 :=
      if clean1 != "" && (clean1.toList.headD ' ').isDigit then "n" ++ clean1
      else clean1
    let clean3 :=
      if MERMAID_KEYWORDS.contains (pyLower clean2) then "block_" ++ clean2
      else clean2
    if clean3 != "" then "id_" ++ clean3 else "id_" ++ (md5hex text).take 8

/-- Behaviour of `sanitize_id` when applied to an arbitrary JSON value,
as the diagram renderer does: falsy values take the first (time-hash)
branch before any string method is reached, truthy non-strings raise
`AttributeError` at `text.strip()`. -/
def sanitizeIdVal (v : Jval) (now : String) : Except String String :=
  if !pyTruthy v then .ok ("id_" ++ (md5hex now).take 8)
  else
    match v with
    | .str s => .ok (sanitize_id s now)
    | v => .error (noAttrMsg v "strip")

/-- Embedding of `sanitize_label` (`app.py` lines 158-169) on strings. -/
def sanitize_label (text : String) : String :=
  if text = "" then "Unknown"
  else
    let cs := text.toList.map (fun c => if c = '"' then '\'' else c)
    let cs := cs.map (fun c => if c = '\n' then ' ' else c)
    let cs := cs.filter (fun c => c != '\r')
    if cs.length > 50 then String.mk (cs.take 47) ++ "..." else String.mk cs

/-- Behaviour of `sanitize_label` on an arbitrary JSON value: falsy
values return `"Unknown"`, truthy non-strings raise `AttributeError` at
`text.replace`. -/
def sanitizeLabelVal (v : Jval) : Except String String :=
  if !pyTruthy v then .ok "Unknown"
  else
    match v with
    | .str s => .ok (sanitize_label s)
    | v => .error (noAttrMsg v "replace")

/-! ## Validator (`app.py` lines 171-199) -/

/-- Per-component checks of `validate_json_structure`: first failure
message for the component list, starting at index `i`. -/
def checkComponents (i : Nat) : List Jval → Option String
  | [] => none
  | c :: rest =>
    match c with
    | .obj kvs =>
      if !jhas kvs "name" then
        some ("Component " ++ toString i ++ " missing 'name'")
      else if !jhas kvs "type" then
        some ("Component " ++ toString i ++ " missing 'type'")
      else checkComponents (i + 1) rest
    | _ => some ("Component " ++ toString i ++ " is not an object")

/-- Embedding of `validate_json_structure`: `(is_valid, message)` with
the checks in source order, short-circuiting on the first failure. -/
def validate_json_structure (data : Jval) : Bool × String :=
  match data with
  | .obj kvs =>
    if !jhas kvs "system_name" then (false, "Missing 'system_name' field")
    else
      match jlook kvs "components" with
      | none => (false, "Missing 'components' field")
      | some comps =>
        match comps with
        | .arr cs =>
          match checkComponents 0 cs.toList with
          | some msg => (false, msg)
          | none =>
            match jlook kvs "connections" with
            | some (.arr _) | none => (true, "Valid")
            | some _ => (false, "'connections' must be a list")
        | _ => (false, "'components' must be a list")
  | _ => (false, "Response is not a JSON object")

/-- Python `"\n".join(lines)`. -/
def joinNl : List String → String
  | [] => ""
  | [a] => a
  | a :: l => a ++ "\n" ++ joinNl l

/-! ## Diagram renderer (`json_to_mermaid`, `app.py` lines 201-311) -/

/-- Key membership in a Python dictionary modelled as an ordered
association list. -/
def dictHas (d : List (String × Jval)) (k : String) : Bool :=
  d.any (fun kv => kv.1 = k)

/-- Python dictionary assignment `d[k] = v`: overwrites in place when the
key exists, appends otherwise (insertion order kept). -/
def dictSet (d : List (String × Jval)) (k : String) (v : Jval) :
    List (String × Jval) :=
  match d with
  | [] => [(k, v)]
  | (k1, v1) :: tl => if k1 = k then (k, v) :: tl else (k1, v1) :: dictSet tl k v

/-- Node statement for one component: the `if/elif` shape switch of
`json_to_mermaid` over the component type. -/
def mermaidNodeLine (safe_id label : String) (ctype : Jval) : String :=
  if jeqStr ctype "Subsystem" then
    "    " ++ safe_id ++ "([\"" ++ label ++ "<br/>Subsystem\"])"
  else if jeqStr ctype "ModelReference" then
    "    " ++ safe_id ++ "[[\"" ++ label ++ "<br/>ModelRef\"]]"
  else if jeqStr ctype "StateflowChart" then
    "    " ++ safe_id ++ "\x7b\"" ++ label ++ "<br/>Stateflow\"\x7d"
  else if jeqStr ctype "Inport" then
    "    " ++ safe_id ++ "([\"" ++ label ++ "\"])"
  else if jeqStr ctype "Outport" then
    "    " ++ safe_id ++ "([\"" ++ label ++ "\"])"
  else
    "    " ++ safe_id ++ "[\"" ++ label ++ "\"]"

/-- Processing of one component in the node loop of `json_to_mermaid`:
returns the emitted line, the assigned identifier and the updated
`node_ids` dictionary, or the message of the exception that makes the
loop skip the component. -/
def mermaidComp (now : String) (idx : Nat) (comp : Jval)
    (node_ids : List (String × Jval)) :
    Except String (String × String × List (String × Jval)) := do
  match comp with
  | .obj kvs =>
    let raw_name := jget kvs "name" (.str ("Component_" ++ toString idx))
    let safe_id0 ← sanitizeIdVal raw_name now
    let safe_id :=
      if dictHas node_ids safe_id0 then safe_id0 ++ "_" ++ toString idx
      else safe_id0
    let node_ids1 := dictSet node_ids safe_id raw_name
    let label ← sanitizeLabelVal raw_name
    let ctype := jget kvs "type" (.str "Unknown")
    return (mermaidNodeLine safe_id label ctype, safe_id, node_ids1)
  | _ => .error (noAttrMsg comp "get")

/-- Node loop of `json_to_mermaid`: emits one line per processed
component, skipping components whose processing raises.  The third
result records the assigned identifiers in emission order (bookkeeping
for verification; the renderer output uses only lines and dictionary). -/
def mermaidNodesGo (now : String) (idx : Nat) (comps : List Jval)
    (lines : List String) (node_ids : List (String × Jval))
    (ids : List String) :
    List String × List (String × Jval) × List String :=
  match comps with
  | [] => (lines, node_ids, ids)
  | c :: rest =>
    match mermaidComp now idx c node_ids with
    | .ok (line, sid, nids) =>
      mermaidNodesGo now (idx + 1) rest (lines ++ [line]) nids (ids ++ [sid])
    | .error _ => mermaidNodesGo now (idx + 1) rest lines node_ids ids

/-- Endpoint resolution of the connection loop: the sanitized identifier
when it is a known node id, else the first node whose recorded raw name
equals the endpoint's base name, else `none` (connection dropped). -/
def resolveEndpoint (node_ids : List (String × Jval)) (safe raw : String) :
    Option String :=
  if dictHas node_ids safe then some safe
  else
    match node_ids.find? (fun kv => jeqStr kv.2 raw) with
    | some kv => some kv.1
    | none => none

/-- Processing of one connection in `json_to_mermaid`: the emitted edge
line if any, `none` when the connection is skipped, or the message of
the exception that makes the loop skip it. -/
def mermaidConn (now : String) (conn : Jval)
    (node_ids : List (String × Jval)) : Except String (Option String) := do
  match conn with
  | .obj kvs =>
    let src_raw := baseName (pyStr (jget kvs "source" (.str "")))
    let dst_raw := baseName (pyStr (jget kvs "destination" (.str "")))
    if src_raw = "" || dst_raw = "" then return none
    let src_safe := sanitize_id src_raw now
    let dst_safe := sanitize_id dst_raw now
    match resolveEndpoint node_ids src_safe src_raw with
    | none => return none
    | some s =>
      match resolveEndpoint node_ids dst_safe dst_raw with
      | none => return none
      | some d =>
        let label := jget kvs "label" (.str "")
        if pyTruthy label then
          let lab ← sanitizeLabelVal label
          return some ("    " ++ s ++ " -->|" ++ lab ++ "| " ++ d)
        else
          return some ("    " ++ s ++ " --> " ++ d)
  | _ => .error (noAttrMsg conn "get")

/-- Connection loop of `json_to_mermaid`: emitted edge lines in order. -/
def mermaidConnsGo (now : String) (conns : List Jval)
    (node_ids : List (String × Jval)) : List String :=
  match conns with
  | [] => []
  | c :: rest =>
    match mermaidConn now c node_ids with
    | .ok (some l) => l :: mermaidConnsGo now rest node_ids
    | _ => mermaidConnsGo now rest node_ids

/-- Fixed fallback diagram returned by the outer exception handler of
`json_to_mermaid`. -/
def mermaidErrorDiagram : String :=
  "graph LR\n    Error[\"Error generating diagram\"]\n"

/-- Embedding of `json_to_mermaid`.  `now` models `str(datetime.now())`
for the `sanitize_id` calls made during rendering.  Total by
construction: the outer `try/except` of the source is the validation
test (the only statement of the guarded block that can raise once the
data is validated is none, every later anomaly being absorbed by the
per-element handlers). -/
def json_to_mermaid (data : Jval) (now : String) : String :=
  let ok := (validate_json_structure data).1
  if !ok then mermaidErrorDiagram
  else
    match data with
    | .obj kvs =>
      let comps :=
        match jget kvs "components" (jarr []) with
        | .arr cs => cs.toList
        | _ => []
      let (nodeLines, node_ids, _ids) := mermaidNodesGo now 0 comps [] [] []
      let conns :=
        match jget kvs "connections" (jarr []) with
        | .arr cs => cs.toList
        | _ => []
      let connLines := mermaidConnsGo now conns node_ids
      joinNl (("graph LR" :: nodeLines) ++ connLines)
    | _ => mermaidErrorDiagram

/-- Identifier assignment of the node loop (emission order), exposed for
the uniqueness claims. -/
def mermaidAssignedIds (comps : List Jval) (now : String) : List String :=
  (mermaidNodesGo now 0 comps [] [] []).2.2

/-! ## Build-script renderer (`json_to_matlab`, `app.py` lines 313-431) -/

/-- Library path lookup table `lib_map` of `json_to_matlab`. -/
def lib_map : List (String × String) :=
  [("Gain", "simulink/Math Operations/Gain"),
   ("Sum", "simulink/Math Operations/Add"),
   ("Integrator", "simulink/Continuous/Integrator"),
   ("Inport", "simulink/Sources/In1"),
   ("Outport", "simulink/Sinks/Out1"),
   ("Subsystem", "built-in/Subsystem"),
   ("ModelReference", "simulink/Ports & Subsystems/Model"),
   ("StateflowChart", "sflib/Chart"),
   ("Constant", "simulink/Sources/Constant"),
   ("Scope", "simulink/Sinks/Scope"),
   ("Product", "simulink/Math Operations/Product"),
   ("Switch", "simulink/Signal Routing/Switch"),
   ("Saturation", "simulink/Discontinuities/Saturation")]

/-- Python `lib_map.get(blk_type, "built-in/Subsystem")` on a hashable
key: only a string key can match, every other hashable key falls back to
the default.  A list or dictionary key raises `TypeError: unhashable
type` instead; that path is taken in `matlabComp` before this lookup is
reached. -/
def libLookup (t : Jval) : String :=
  match t with
  | .str s => (((lib_map.find? (fun kv => kv.1 = s)).map (·.2)).getD "built-in/Subsystem")
  | _ => "built-in/Subsystem"

/-- Python iteration over a value (`for x in v`): lists yield elements,
strings yield one-character strings, dictionaries yield keys, other
values raise `TypeError`. -/
def pyIterate : Jval → Except String (List Jval)
  | .arr xs => .ok xs.toList
  | .str s => .ok (s.toList.map (fun c => .str (String.mk [c])))
  | .obj kvs => .ok (kvs.toList.map (fun kv => .str kv.1))
  | v => .error ("'" ++ pyTypeName v ++ "' object is not iterable")

/-- Processing of one component in the block loop of `json_to_matlab`:
the emitted lines and updated auto-layout column counter; a component
whose processing raises contributes a single diagnostic comment (a
non-string `name` raises `AttributeError` at `.replace`, a list- or
dictionary-valued `type` raises `TypeError: unhashable type` at
`lib_map.get`). -/
def matlabComp (model_name : String) (idx : Nat) (comp : Jval)
    (col_count : Nat) : List String × Nat :=
  match comp with
  | .obj kvs =>
    let blk_type := jget kvs "type" (.str "Subsystem")
    match jget kvs "name" (.str ("Block_" ++ toString idx)) with
    | .str nm =>
      let blk_name := reSubNonWord (replaceChar nm ' ' '_')
      match blk_type with
      | .arr _ =>
        (["% Error processing component " ++ toString idx ++ ": unhashable type: 'list'"],
         col_count)
      | .obj _ =>
        (["% Error processing component " ++ toString idx ++ ": unhashable type: 'dict'"],
         col_count)
      | _ =>
        let lib_path := libLookup blk_type
        let openLines :=
          ["\n% Adding " ++ pyStr blk_type ++ ": " ++ blk_name,
           "try",
           "    add_block('" ++ lib_path ++ "', '" ++ model_name ++ "/" ++ blk_name ++ "');"]
        let paramLines :=
          match jlook kvs "parameters" with
          | some (.obj ps) =>
            ps.toList.map (fun kv =>
              "    set_param('" ++ model_name ++ "/" ++ blk_name ++ "', '" ++
                kv.1 ++ "', '" ++ pyStr kv.2 ++ "');")
          | _ => []
        let (posLines, col1) :=
          match jlook kvs "position" with
          | some pv =>
            let pos := removeChar (removeChar (pyStr pv) '[') ']'
            (["    set_param('" ++ model_name ++ "/" ++ blk_name ++
                "', 'Position', [" ++ pos ++ "]);"], col_count)
          | none =>
            let x := 100 + (col_count % 4) * 200
            let y := 100 + (col_count / 4) * 100
            (["    set_param('" ++ model_name ++ "/" ++ blk_name ++
                "', 'Position', [" ++ toString x ++ ", " ++ toString y ++ ", " ++
                toString (x + 80) ++ ", " ++ toString (y + 40) ++ "]);"],
             col_count + 1)
        let closeLines :=
          ["catch ME",
           "    warning('Failed to add block " ++ blk_name ++ ": %s', ME.message);",
           "end"]
        (openLines ++ paramLines ++ posLines ++ closeLines, col1)
    | v =>
      (["% Error processing component " ++ toString idx ++ ": " ++ noAttrMsg v "replace"],
       col_count)
  | _ =>
    (["% Error processing component " ++ toString idx ++ ": " ++ noAttrMsg comp "get"],
     col_count)

/-- Block loop of `json_to_matlab` over the components. -/
def matlabCompsGo (model_name : String) (idx : Nat) (comps : List Jval)
    (col_count : Nat) : List String :=
  match comps with
  | [] => []
  | c :: rest =>
    let (ls, col1) := matlabComp model_name idx c col_count
    ls ++ matlabCompsGo model_name (idx + 1) rest col1

/-- Processing of one connection in `json_to_matlab`. -/
def matlabConn (model_name : String) (idx : Nat) (conn : Jval) : List String :=
  match conn with
  | .obj kvs =>
    let src := reSubNonWordSlash (replaceChar (pyStr (jget kvs "source" (.str ""))) ' ' '_')
    let dst := reSubNonWordSlash (replaceChar (pyStr (jget kvs "destination" (.str ""))) ' ' '_')
    if src != "" && dst != "" then
      ["try",
       "    add_line('" ++ model_name ++ "', '" ++ src ++ "', '" ++ dst ++
         "', 'autorouting', 'on');",
       "catch ME",
       "    warning('Connection failed " ++ src ++ " -> " ++ dst ++ ": %s', ME.message);",
       "end"]
    else []
  | _ =>
    ["% Error processing connection " ++ toString idx ++ ": " ++ noAttrMsg conn "get"]

/-- Connection loop of `json_to_matlab`. -/
def matlabConnsGo (model_name : String) (idx : Nat) (conns : List Jval) :
    List String :=
  match conns with
  | [] => []
  | c :: rest => matlabConn model_name idx c ++ matlabConnsGo model_name (idx + 1) rest

/-- Error script returned by the outer exception handler of
`json_to_matlab`, with the exception message. -/
def matlabErrorScript (msg : String) : String :=
  "% Error generating MATLAB script: " ++ msg ++ "\n% Please check the JSON structure."

/-- Sanitized model name of `json_to_matlab` (spaces to underscores,
non-word characters stripped, leading-digit and emptiness guarded). -/
def matlabModelName (sn : String) : String :=
  let mn := reSubNonWord (replaceChar sn ' ' '_')
  if mn = "" || (mn.toList.headD ' ').isDigit then "M_" ++ mn else mn

/-- Lines of the build script after the timestamp line: rest of the
preamble, block section, connection section, closing sequence.  Factored
out so that the timestamp line is visibly the only clock-dependent part
of the script. -/
def matlabTail (model_name : String) (comps conns : List Jval) : List String :=
  ["% ==========================================",
   "",
   "% Close all systems and clear workspace",
   "bdclose all; clear; clc;",
   "",
   "% Create new system",
   "new_system('" ++ model_name ++ "');",
   "open_system('" ++ model_name ++ "');",
   ""] ++
  ["% ========================================== ",
   "% Add Blocks",
   "% =========================================="] ++
  matlabCompsGo model_name 0 comps 0 ++
  ["\n% ==========================================",
   "% Connect Blocks",
   "% =========================================="] ++
  matlabConnsGo model_name 0 conns ++
  ["\n% ==========================================",
   "% Save and Display",
   "% ==========================================",
   "save_system('" ++ model_name ++ "');",
   "fprintf('Model " ++ model_name ++ " created successfully!\\n');"]

/-- Body of `json_to_matlab` once the model name is computed: preamble
with the timestamp `now`, block section, connection section, closing
sequence.  Returns an error script when a loop's subject is not
iterable (the outer `try/except` of the source). -/
def matlabBody (data_kvs : JObj) (model_name now : String) : String :=
  match pyIterate (jget data_kvs "components" (jarr [])) with
  | .error msg => matlabErrorScript msg
  | .ok comps =>
    match pyIterate (jget data_kvs "connections" (jarr [])) with
    | .error msg => matlabErrorScript msg
    | .ok conns =>
      joinNl (("% Auto-Generated MBD Build Script for: " ++ model_name) ::
        ("% Generated on: " ++ now) :: matlabTail model_name comps conns)

/-- Embedding of `json_to_matlab`.  `now` models the formatted timestamp
`datetime.now().strftime('%Y-%m-%d %H:%M:%S')`.  A non-dictionary input
or a non-string `system_name` raises at the first attribute access and
is turned into the error script by the outer handler. -/
def json_to_matlab (data : Jval) (now : String) : String :=
  match data with
  | .obj kvs =>
    match jget kvs "system_name" (.str "GenAI_Model") with
    | .str sn => matlabBody kvs (matlabModelName sn) now
    | v => matlabErrorScript (noAttrMsg v "replace")
  | _ => matlabErrorScript (noAttrMsg data "get")

/-! ## Response extractor (`extract_json_from_text`, `app.py` lines 685-715)

Python's `json.loads` is standard-library code external to this
repository; it is modelled as a parameter `jloads : String → Option Jval`
(`none` standing for `json.JSONDecodeError`).  The fence stripping and
the outermost-object/array heuristics are embedded concretely. -/

/-- Remainder of `l` after the prefix `pat`, when `pat` is a prefix. -/
def dropPref : List Char → List Char → Option (List Char)
  | [], l => some l
  | _, [] => none
  | p :: ps, c :: cs => if p = c then dropPref ps cs else none

/-- Fuel-structured worker for `re.sub(pat + r'\s*', '', text)` with a
literal (non-empty) `pat`: every match of `pat` followed by its greedy
whitespace run is removed.  The fuel is the list length, always enough
since each step consumes at least one character. -/
def reSubMarkerGo (pat : List Char) : Nat → List Char → List Char
  | 0, l => l
  | _ + 1, [] => []
  | fuel + 1, c :: rest =>
    match dropPref pat (c :: rest) with
    | some rem => reSubMarkerGo pat fuel (rem.dropWhile pySpace)
    | none => c :: reSubMarkerGo pat fuel rest

/-- Python `re.sub(pat + r'\s*', '', text)` for a literal `pat`. -/
def reSubMarker (pat : String) (l : List Char) : List Char :=
  reSubMarkerGo pat.toList l.length l

/-- Python `re.search(r'\x7b.*\x7d', text, re.DOTALL)` (and the `[...]`
variant): greedy span from the first `op` to the last `cl`, when a `cl`
follows the first `op`. -/
def braceSpan (l : List Char) (op cl : Char) : Option (List Char) :=
  match l.findIdx? (fun c => c = op) with
  | none => none
  | some i =>
    let rest := l.drop i
    match rest.reverse.findIdx? (fun c => c = cl) with
    | none => none
    | some j =>
      let len := rest.length - j
      if 2 ≤ len then some (rest.take len) else none

/-- Embedding of `extract_json_from_text`: direct parse, then fence
stripping, then outermost-object substring parse, then outermost-array
substring parse, else `none`. -/
def extract_json_from_text (jloads : String → Option Jval) (text : String) :
    Option Jval :=
  match jloads text with
  | some v => some v
  | none =>
    let cs := reSubMarker "```" (reSubMarker "```json" text.toList)
    let objTry :=
      match braceSpan cs '{' '}' with
      | some sub => jloads (String.mk sub)
      | none => none
    match objTry with
    | some v => some v
    | none =>
      match braceSpan cs '[' ']' with
      | some sub => jloads (String.mk sub)
      | none => none

/-! ## AI retry loop (`get_ai_response`, `app.py` lines 717-801)

The oracle (`genai` model call) is external: it is modelled as
`oracle : Nat → String → Except String String`, the attempt index and
the prompt mapped to either the response text or the message of a
transport exception.  The two fixed prompt texts are pure data never
inspected by the control flow and are passed in as parameters; the
history entries' timestamp field, pure display data, is omitted. -/

/-- Entry of the generation history log. -/
inductive HistEntry where
  | success (model : String) (attempt : Nat)
  | failure (model : String) (attempts : Nat)
deriving DecidableEq, Repr

/-- Body of one attempt of `get_ai_response` (the `try` block): the
extracted-and-validated graph, or the message of the exception that
makes the attempt fail (empty response, falsy or failed extraction,
validation failure, or oracle transport error). -/
def attemptOnce (jloads : String → Option Jval)
    (resp : Except String String) : Except String Jval :=
  match resp with
  | .error e => .error e
  | .ok t =>
    if t = "" then .error "Empty response from AI model"
    else
      match extract_json_from_text jloads t with
      | some v =>
        if pyTruthy v then
          let r := validate_json_structure v
          if r.1 then .ok v
          else .error ("Invalid JSON structure: " ++ r.2)
        else .error "Could not extract valid JSON from response"
      | none => .error "Could not extract valid JSON from response"

/-- Prompt assembly of `get_ai_response`: template selected by input
type, then the fixed separator and the 15000-character-capped user
input.  The same string is passed to the oracle on every attempt. -/
def fullPrompt (codePrompt reqPrompt user_input input_type : String) : String :=
  (if input_type = "code" then codePrompt else reqPrompt) ++
    "\n\nUSER INPUT DATA:\n" ++ user_input.take 15000

/-- Retry loop of `get_ai_response`: `attempt` is the 0-based index of
the next attempt, `remaining` the attempts left of the `max_retries`
budget.  Returns the graph of the first successful attempt with its
success history entry, or `none` with the failure entry after the
budget is exhausted. -/
def getAiGo (jloads : String → Option Jval)
    (oracle : Nat → String → Except String String)
    (full_prompt modelName : String) (max_retries : Nat) :
    Nat → Nat → Option Jval × List HistEntry
  | _, 0 => (none, [.failure modelName max_retries])
  | attempt, r + 1 =>
    match attemptOnce jloads (oracle attempt full_prompt) with
    | .ok v => (some v, [.success modelName (attempt + 1)])
    | .error _ => getAiGo jloads oracle full_prompt modelName max_retries (attempt + 1) r

/-- Embedding of `get_ai_response`: prompt selection by input type,
prompt assembly with the 15000-character cap on the user input, then
the bounded retry loop.  The returned list holds the history entries
the run appends to the session log. -/
def get_ai_response (jloads : String → Option Jval)
    (oracle : Nat → String → Except String String)
    (codePrompt reqPrompt modelName : String)
    (user_input input_type : String) (max_retries : Nat) :
    Option Jval × List HistEntry :=
  getAiGo jloads oracle (fullPrompt codePrompt reqPrompt user_input input_type)
    modelName max_retries 0 max_retries

/-! ## Specification-side definitions (for refinement claims)

These follow the wording of the specification (§4.2), not the source,
and are compared with the embedded code. -/

/-- Check 4 of §4.2: a component element is a record with at least
`name` and `type` fields. -/
def specComponentOk (c : Jval) : Bool :=
  match c with
  | .obj kvs => jhas kvs "name" && jhas kvs "type"
  | _ => false

/-- Reason reported for the first offending component (messages as the
implementation words them; §4.2 only requires them human-readable). -/
def specCompMsg (i : Nat) (c : Jval) : String :=
  match c with
  | .obj kvs =>
    if !jhas kvs "name" then "Component " ++ toString i ++ " missing 'name'"
    else "Component " ++ toString i ++ " missing 'type'"
  | _ => "Component " ++ toString i ++ " is not an object"

/-- Conjunction of the five checks of §4.2: object shape, system-name
field, components field that is a sequence, every component a record
with `name` and `type`, connections (when present) a sequence.  Written
as one conjunction with universally-quantified element checks, unlike
the short-circuit loop of the source. -/
def validateSpecOk (d : Jval) : Bool :=
  match d with
  | .obj kvs =>
    jhas kvs "system_name" &&
    (match jlook kvs "components" with
     | some (.arr cs) => cs.toList.all specComponentOk
     | _ => false) &&
    (match jlook kvs "connections" with
     | some (.arr _) => true
     | some _ => false
     | none => true)
  | _ => false

/-- Specification-side first failing component of check 4: index and
element of the first entry that is not a record with `name` and `type`
(the spec's short-circuit order). -/
def specFirstBadComp (i : Nat) : List Jval → Option (Nat × Jval)
  | [] => none
  | c :: rest =>
    if specComponentOk c then specFirstBadComp (i + 1) rest else some (i, c)

/-- Replacement of the value of the first binding of key `k` in an
object (identity when the key is absent): used to state that validation
ignores the elements of `connections`. -/
def jobjSet : JObj → String → Jval → JObj
  | .nil, _, _ => .nil
  | .cons k1 v tl, k, v' =>
    if k1 = k then .cons k1 v' tl else .cons k1 v (jobjSet tl k v')

/-! ## Determinism predicates (for the purity claim)

`sanitize_id` reads the clock exactly when its input is empty or
whitespace-only; these predicates delimit the graphs whose diagram
rendering never reaches that branch. -/

/-- A value on which `sanitize_id`'s behaviour cannot reach the
time-hash branch: truthy, and when a string, non-blank after strip. -/
def valDet (v : Jval) : Bool :=
  if pyTruthy v then
    match v with
    | .str s => pyStrip s != ""
    | _ => true
  else false

/-- The `name` field of a component never routes `sanitize_id` into the
time-hash branch: absent (index default used), a truthy non-string
(component skipped), or a string with non-blank strip. -/
def nameDet (c : Jval) : Bool :=
  match c with
  | .obj kvs =>
    match jlook kvs "name" with
    | none => true
    | some v => valDet v
  | _ => true

/-- A connection endpoint's base name (before the first `/`) is either
empty (connection skipped) or non-blank after stripping. -/
def endpointDet (v : Jval) : Bool :=
  let base := baseName (pyStr v)
  base = "" || pyStrip base != ""

/-- The two endpoints of a connection never route `sanitize_id` into the
time-hash branch. -/
def connDet (c : Jval) : Bool :=
  match c with
  | .obj kvs =>
    let src := baseName (pyStr (jget kvs "source" (.str "")))
    let dst := baseName (pyStr (jget kvs "destination" (.str "")))
    src = "" || dst = "" || (pyStrip src != "" && pyStrip dst != "")
  | _ => true

/-- Diagram-renderer inputs on which no `sanitize_id` call can reach the
time-hash branch. -/
def mermaidDetInput (data : Jval) : Bool :=
  match data with
  | .obj kvs =>
    (match jget kvs "components" (jarr []) with
     | .arr cs => cs.toList.all nameDet
     | _ => true) &&
    (match jget kvs "connections" (jarr []) with
     | .arr cs => cs.toList.all connDet
     | _ => true)
  | _ => true

/-! ## Concrete graphs used by the claims -/

/-- Component literal with a name and a type. -/
def mkComp (n t : String) : Jval := jobj [("name", .str n), ("type", .str t)]

/-- Connection literal with a source and a destination. -/
def mkConn (s d : String) : Jval :=
  jobj [("source", .str s), ("destination", .str d)]

/-- The empty graph of §8: no components, no connections. -/
def emptyGraph : Jval :=
  jobj [("system_name", .str "S"), ("components", jarr []),
        ("connections", jarr [])]

/-- Two components both named `Pump` (§8 duplicate-name scenario). -/
def pumpGraph : Jval :=
  jobj [("system_name", .str "S"),
        ("components", jarr [mkComp "Pump" "Gain", mkComp "Pump" "Gain"])]

/-- Components named `B_2`, `B`, `B`: the index-suffix collision repair
of the node loop assigns `id_B_2` twice. -/
def dupIdGraph : Jval :=
  jobj [("system_name", .str "S"),
        ("components", jarr [mkComp "B_2" "Gain", mkComp "B" "Gain",
                             mkComp "B" "Gain"])]

/-- One component `A` and one dangling connection `A/1 → B/1` (§8). -/
def danglingGraph : Jval :=
  jobj [("system_name", .str "S"),
        ("components", jarr [mkComp "A" "Gain"]),
        ("connections", jarr [mkConn "A/1" "B/1"])]

/-- One component `B!` and a connection to `B`: no component is named
`B`, yet `sanitize_id B = id_B` collides with the identifier of `B!`. -/
def sanitizeCollisionGraph : Jval :=
  jobj [("system_name", .str "S"),
        ("components", jarr [mkComp "B!" "Gain"]),
        ("connections", jarr [mkConn "B!/1" "B/1"])]

/-- A graph whose single component has a whitespace-only name. -/
def blankNameGraph : Jval :=
  jobj [("system_name", .str "S"),
        ("components", jarr [mkComp " " "Gain"])]

/-- Single-component graph with the given type string. -/
def unknownTypeGraph (t : String) : Jval :=
  jobj [("system_name", .str "S"), ("components", jarr [mkComp "A" t])]

/-! ## General lemmas -/

/-- Joined lines start with the first line. -/
theorem joinNl_cons_exists (a : String) (l : List String) :
    ∃ r, joinNl (a :: l) = a ++ r := by
  cases l with
  | nil => exact ⟨"", by simp [joinNl]⟩
  | cons b t => exact ⟨"\n" ++ joinNl (b :: t), by simp [joinNl, String.append_assoc]⟩

/-- A string extended on the right is nonempty when the left part is. -/
theorem append_ne_empty_left (s r : String) (h : s ≠ "") : s ++ r ≠ "" := by
  intro hc
  apply h
  have hl : (s ++ r).length = s.length + r.length := String.length_append s r
  have : s.length = 0 := by
    rw [hc] at hl
    simpa using Nat.eq_zero_of_add_eq_zero_right hl.symm
  cases s with
  | mk data =>
    cases data with
    | nil => rfl
    | cons c cs => simp [String.length] at this

/-! ## Claim theorems -/

/-- Validation failure routes the renderer to the placeholder (shared
helper). -/
theorem mermaid_invalid_eq_placeholder (d : Jval) (n : String)
    (h : (validate_json_structure d).1 = false) :
    json_to_mermaid d n = "graph LR\n    Error[\"Error generating diagram\"]\n" := by
  cases d <;> simp [json_to_mermaid, h, mermaidErrorDiagram]

/-- C10.  Diagram Renderer totality: the embedding is a total function
on arbitrary JSON values (never raises, by construction), and on every
input that fails validation — non-objects such as lists, scalars and
null included — the output is the fixed placeholder diagram: the header
line followed by the single `Error` node. -/
theorem mermaid_total_invalid_placeholder (d : Jval) (n : String)
    (h : (validate_json_structure d).1 = false) :
    json_to_mermaid d n = "graph LR\n    Error[\"Error generating diagram\"]\n" :=
  mermaid_invalid_eq_placeholder d n h

/-- Witness for C10: the empty list input fails validation and renders
as the placeholder diagram. -/
theorem mermaid_total_invalid_placeholder_witness :
    (validate_json_structure (jarr [])).1 = false ∧
      json_to_mermaid (jarr []) "T" =
        "graph LR\n    Error[\"Error generating diagram\"]\n" :=
  ⟨by decide, mermaid_total_invalid_placeholder (jarr []) "T" (by decide)⟩

/-- C2 counterexample.  A valid graph with zero components renders as
the bare header `graph LR` — one line, no diagnostic placeholder node —
so the claim that a placeholder node is emitted whenever zero valid
nodes exist fails on the code. -/
theorem mermaid_empty_graph_bare_header :
    json_to_mermaid emptyGraph "T" = "graph LR" ∧
      (json_to_mermaid emptyGraph "T").toList.all (fun c => c != '\n') = true := by
  constructor
  · decide
  · decide

/-- C2 amended.  Never-empty diagram: for every input and timestamp the
Diagram Renderer output begins with the header line `graph LR` and is
never the empty string; the placeholder `Error` node appears only on
the validation-failure path, and a valid graph with zero components
yields exactly the bare header (no placeholder node). -/
theorem mermaid_starts_with_header (d : Jval) (n : String) :
    (∃ r, json_to_mermaid d n = "graph LR" ++ r) ∧ json_to_mermaid d n ≠ "" := by
  have key : ∃ r, json_to_mermaid d n = "graph LR" ++ r := by
    by_cases h : (validate_json_structure d).1 = false
    · exact ⟨"\n    Error[\"Error generating diagram\"]\n",
        mermaid_invalid_eq_placeholder d n h⟩
    · cases d with
      | obj kvs =>
        simp only [json_to_mermaid, Bool.not_eq_false] at h ⊢
        rw [h]
        simpa using joinNl_cons_exists "graph LR" _
      | null => simp [validate_json_structure] at h
      | bool b => simp [validate_json_structure] at h
      | num m => simp [validate_json_structure] at h
      | str s => simp [validate_json_structure] at h
      | arr xs => simp [validate_json_structure] at h
  refine ⟨key, ?_⟩
  obtain ⟨r, hr⟩ := key
  rw [hr]
  exact append_ne_empty_left _ _ (by decide)

/-- C3.  Reserved-keyword handling as the code actually behaves: the
eight keywords stored lower-case in `MERMAID_KEYWORDS` receive the
`block_` marker whatever the input case, but the five direction
keywords are stored upper-case (`TB, TD, BT, RL, LR`) while the
membership test lowercases the identifier first, so they never match
and never receive the marker — in any letter case. -/
theorem sanitize_keyword_case_behaviour :
    sanitize_id "end" "T" = "id_block_end" ∧
    sanitize_id "End" "T" = "id_block_End" ∧
    sanitize_id "END" "T" = "id_block_END" ∧
    sanitize_id "graph" "T" = "id_block_graph" ∧
    sanitize_id "subgraph" "T" = "id_block_subgraph" ∧
    sanitize_id "style" "T" = "id_block_style" ∧
    sanitize_id "class" "T" = "id_block_class" ∧
    sanitize_id "click" "T" = "id_block_click" ∧
    sanitize_id "call" "T" = "id_block_call" ∧
    sanitize_id "Direction" "T" = "id_block_Direction" ∧
    sanitize_id "tb" "T" = "id_tb" ∧
    sanitize_id "TB" "T" = "id_TB" ∧
    sanitize_id "td" "T" = "id_td" ∧
    sanitize_id "TD" "T" = "id_TD" ∧
    sanitize_id "bt" "T" = "id_bt" ∧
    sanitize_id "BT" "T" = "id_BT" ∧
    sanitize_id "rl" "T" = "id_rl" ∧
    sanitize_id "RL" "T" = "id_RL" ∧
    sanitize_id "lr" "T" = "id_lr" ∧
    sanitize_id "LR" "T" = "id_LR" := by
  decide

/-- Input refuting the truncation parenthetical of the label-safety
claim: 51 characters, three of them carriage returns. -/
def crLongInput : String := String.mk (List.replicate 48 'a' ++ ['\r', '\r', '\r'])

/-- C9 counterexample.  An input of 51 characters (48 letters and three
carriage returns) is longer than 50 yet is neither truncated nor marked
with an ellipsis: the carriage returns are removed first and the
length test sees only 48 characters. -/
theorem sanitize_label_long_input_without_ellipsis :
    crLongInput.length = 51 ∧
    sanitize_label crLongInput = String.mk (List.replicate 48 'a') ∧
    (sanitize_label crLongInput).toList.all (fun c => c != '.') = true := by
  refine ⟨by decide, by decide, by decide⟩

/-- C9 amended.  Label safety bounds: every sanitized label has at most
50 characters and holds no raw double quote, newline or carriage
return; the truncation-with-ellipsis applies to inputs whose length
after character replacement exceeds 50 — in particular to every
carriage-return-free input longer than 50 characters. -/
theorem sanitize_label_safety (s : String) :
    (sanitize_label s).length ≤ 50 ∧
    (∀ c ∈ (sanitize_label s).toList, c ≠ '"' ∧ c ≠ '\n' ∧ c ≠ '\r') ∧
    (s.length > 50 → s.toList.contains '\r' = false →
      ∃ t, sanitize_label s = t ++ "..." ∧ (sanitize_label s).length = 50) := by
  by_cases hs : s = ""
  · subst hs
    refine ⟨by decide, by decide, fun h1 _ => absurd h1 (by decide)⟩
  · have hL : ∀ c ∈ ((s.toList.map fun c => if c = '"' then '\'' else c).map
        fun c => if c = '\n' then ' ' else c).filter (fun c => c != '\r'),
        c ≠ '"' ∧ c ≠ '\n' ∧ c ≠ '\r' := by
      intro c hc
      obtain ⟨hc2, hcr⟩ := List.mem_filter.mp hc
      obtain ⟨b, hb, hbc⟩ := List.mem_map.mp hc2
      obtain ⟨a, _, hab⟩ := List.mem_map.mp hb
      refine ⟨?_, ?_, by simpa using hcr⟩
      · subst hbc
        subst hab
        by_cases h1 : a = '"'
        · rw [if_pos h1]
          decide
        · rw [if_neg h1]
          by_cases h2 : a = '\n'
          · rw [if_pos h2]
            decide
          · rw [if_neg h2]
            exact h1
      · subst hbc
        by_cases h2 : b = '\n'
        · rw [if_pos h2]
          decide
        · rw [if_neg h2]
          exact h2
    have hrw : sanitize_label s =
        (if (((s.toList.map fun c => if c = '"' then '\'' else c).map
              fun c => if c = '\n' then ' ' else c).filter (fun c => c != '\r')).length > 50
         then String.mk ((((s.toList.map fun c => if c = '"' then '\'' else c).map
              fun c => if c = '\n' then ' ' else c).filter (fun c => c != '\r')).take 47) ++ "..."
         else String.mk (((s.toList.map fun c => if c = '"' then '\'' else c).map
              fun c => if c = '\n' then ' ' else c).filter (fun c => c != '\r'))) := by
      simp [sanitize_label, hs]
    set L := ((s.toList.map fun c => if c = '"' then '\'' else c).map
        fun c => if c = '\n' then ' ' else c).filter (fun c => c != '\r') with hLdef
    by_cases hlen : L.length > 50
    · rw [hrw, if_pos hlen]
      have hlen50 : (String.mk (L.take 47) ++ "...").length = 50 := by
        have h3 : (String.mk (L.take 47) ++ "...").length = (L.take 47).length + 3 := by
          rw [String.length_append]
          rfl
        rw [h3, List.length_take]
        omega
      refine ⟨by omega, ?_, fun _ _ => ⟨String.mk (L.take 47), rfl, hlen50⟩⟩
      intro c hc
      have : (String.mk (L.take 47) ++ "...").toList = L.take 47 ++ ['.', '.', '.'] := rfl
      rw [this] at hc
      rcases List.mem_append.mp hc with h | h
      · exact hL c (List.take_subset 47 L h)
      · simp only [List.mem_cons, List.not_mem_nil, or_false] at h
        rcases h with h | h | h <;> subst h <;> refine ⟨by decide, by decide, by decide⟩
    · rw [hrw, if_neg hlen]
      have hlenL : (String.mk L).length = L.length := rfl
      refine ⟨by rw [hlenL]; omega, ?_, ?_⟩
      · intro c hc
        exact hL c hc
      · intro h1 h2
        exfalso
        apply hlen
        have hnotin : '\r' ∉ s.toList := by
          simpa using h2
        have hnor : ∀ c ∈ (s.toList.map fun c => if c = '"' then '\'' else c).map
            fun c => if c = '\n' then ' ' else c, (c != '\r') = true := by
          intro c hc
          obtain ⟨b, hb, hbc⟩ := List.mem_map.mp hc
          obtain ⟨a, ha, hab⟩ := List.mem_map.mp hb
          have har : a ≠ '\r' := fun hEq => hnotin (hEq ▸ ha)
          subst hbc
          subst hab
          by_cases h3 : a = '"'
          · rw [if_pos h3]
            decide
          · rw [if_neg h3]
            by_cases h4 : a = '\n'
            · rw [if_pos h4]
              decide
            · rw [if_neg h4]
              simpa using har
        have hfilter : L = (s.toList.map fun c => if c = '"' then '\'' else c).map
            fun c => if c = '\n' then ' ' else c := by
          rw [hLdef]
          exact List.filter_eq_self.mpr hnor
        rw [hfilter]
        simpa using h1

/-- Witness for C9: a 60-character input is truncated to 47 characters
plus the ellipsis, 50 in total. -/
theorem sanitize_label_safety_witness :
    ∃ t, sanitize_label (String.mk (List.replicate 60 'b')) = t ++ "..." ∧
      (sanitize_label (String.mk (List.replicate 60 'b'))).length = 50 :=
  (sanitize_label_safety (String.mk (List.replicate 60 'b'))).2.2
    (by decide) (by decide)

/-- C6.  Unknown-type fallback: for every type string outside the
closed 13-type table, neither renderer rejects the component — the
Diagram Renderer emits the plain default box node, and the Build-Script
Renderer resolves the type to the generic container path
`built-in/Subsystem` and still emits the block-creation statement
(shown on a one-component graph named `A`, with the whole mermaid
output, the library lookup, and the full block-loop emission). -/
theorem unknown_type_fallback (s : String) (h : ∀ kv ∈ lib_map, kv.1 ≠ s) :
    json_to_mermaid (unknownTypeGraph s) "T" = "graph LR\n    id_A[\"A\"]" ∧
    libLookup (.str s) = "built-in/Subsystem" ∧
    matlabComp "S" 0 (mkComp "A" s) 0 =
      (["\n% Adding " ++ s ++ ": " ++ "A",
        "try",
        "    add_block('built-in/Subsystem', 'S/A');",
        "    set_param('S/A', 'Position', [100, 100, 180, 140]);",
        "catch ME",
        "    warning('Failed to add block A: %s', ME.message);",
        "end"], 1) := by
  have hSub : s ≠ "Subsystem" :=
    (h ("Subsystem", "built-in/Subsystem") (by decide)).symm
  have hMR : s ≠ "ModelReference" :=
    (h ("ModelReference", "simulink/Ports & Subsystems/Model") (by decide)).symm
  have hSF : s ≠ "StateflowChart" :=
    (h ("StateflowChart", "sflib/Chart") (by decide)).symm
  have hIn : s ≠ "Inport" :=
    (h ("Inport", "simulink/Sources/In1") (by decide)).symm
  have hOut : s ≠ "Outport" :=
    (h ("Outport", "simulink/Sinks/Out1") (by decide)).symm
  have hlib : libLookup (.str s) = "built-in/Subsystem" := by
    have hfind : lib_map.find? (fun kv => kv.1 = s) = none :=
      List.find?_eq_none.mpr (fun kv hkv => by simpa using h kv hkv)
    simp [libLookup, hfind]
  refine ⟨?_, hlib, ?_⟩
  · have e1 : json_to_mermaid (unknownTypeGraph s) "T" =
        joinNl ["graph LR", mermaidNodeLine "id_A" "A" (.str s)] := rfl
    have e2 : mermaidNodeLine "id_A" "A" (.str s) = "    id_A[\"A\"]" := by
      simp [mermaidNodeLine, jeqStr, hSub, hMR, hSF, hIn, hOut]
    rw [e1, e2]
    decide
  · calc matlabComp "S" 0 (mkComp "A" s) 0
        = (["\n% Adding " ++ s ++ ": " ++ "A",
            "try",
            "    add_block('" ++ libLookup (.str s) ++ "', '" ++ "S" ++ "/" ++ "A" ++ "');",
            "    set_param('S/A', 'Position', [100, 100, 180, 140]);",
            "catch ME",
            "    warning('Failed to add block A: %s', ME.message);",
            "end"], 1) := rfl
      _ = (["\n% Adding " ++ s ++ ": " ++ "A",
            "try",
            "    add_block('built-in/Subsystem', 'S/A');",
            "    set_param('S/A', 'Position', [100, 100, 180, 140]);",
            "catch ME",
            "    warning('Failed to add block A: %s', ME.message);",
            "end"], 1) := by
          rw [hlib]
          rfl

/-- Witness for C6: the claim's example type string `FooBar`. -/
theorem unknown_type_fallback_witness :
    json_to_mermaid (unknownTypeGraph "FooBar") "T" = "graph LR\n    id_A[\"A\"]" ∧
    libLookup (.str "FooBar") = "built-in/Subsystem" ∧
    matlabComp "S" 0 (mkComp "A" "FooBar") 0 =
      (["\n% Adding " ++ "FooBar" ++ ": " ++ "A",
        "try",
        "    add_block('built-in/Subsystem', 'S/A');",
        "    set_param('S/A', 'Position', [100, 100, 180, 140]);",
        "catch ME",
        "    warning('Failed to add block A: %s', ME.message);",
        "end"], 1) :=
  unknown_type_fallback "FooBar" (by decide)

/-- Structure of a successful component-processing step: the updated
dictionary stores the assigned identifier, and the identifier either is
fresh in the incoming dictionary or is a colliding identifier suffixed
with the positional index. -/
theorem mermaidComp_ok_spec (now : String) (idx : Nat) (c : Jval)
    (nids : List (String × Jval)) (l sid : String)
    (nids' : List (String × Jval))
    (h : mermaidComp now idx c nids = .ok (l, sid, nids')) :
    (∃ raw, nids' = dictSet nids sid raw) ∧
    (∃ s0, (dictHas nids s0 = true ∧ sid = (s0 ++ "_") ++ toString idx) ∨
      (dictHas nids s0 = false ∧ sid = s0)) := by
  cases c with
  | obj kvs =>
    simp only [mermaidComp, bind, Except.bind] at h
    rcases e1 : sanitizeIdVal (jget kvs "name" (.str ("Component_" ++ toString idx))) now with m | s0
    · rw [e1] at h
      exact absurd h (by simp)
    · rw [e1] at h
      rcases e2 : sanitizeLabelVal (jget kvs "name" (.str ("Component_" ++ toString idx))) with m | lab
      · rw [e2] at h
        exact absurd h (by simp)
      · rw [e2] at h
        simp only [pure, Except.pure, Except.ok.injEq, Prod.mk.injEq] at h
        obtain ⟨_, hsid, hnids⟩ := h
        by_cases hd : dictHas nids s0 = true
        · rw [if_pos hd] at hsid hnids
          exact ⟨⟨_, by rw [← hsid, ← hnids]⟩, s0, Or.inl ⟨hd, hsid.symm⟩⟩
        · rw [if_neg hd] at hsid hnids
          exact ⟨⟨_, by rw [← hsid, ← hnids]⟩, s0,
            Or.inr ⟨Bool.not_eq_true _ ▸ hd, hsid.symm⟩⟩
  | null => exact absurd h (by simp [mermaidComp])
  | bool b => exact absurd h (by simp [mermaidComp])
  | num m => exact absurd h (by simp [mermaidComp])
  | str s => exact absurd h (by simp [mermaidComp])
  | arr xs => exact absurd h (by simp [mermaidComp])

/-- A string properly extended on the right differs from itself. -/
theorem ne_append_append (s a b : String) (ha : a ≠ "" ∨ b ≠ "") :
    s ≠ (s ++ a) ++ b := by
  intro hEq
  have hlen : s.length = ((s ++ a) ++ b).length := congrArg String.length hEq
  rw [String.length_append, String.length_append] at hlen
  rcases ha with h | h
  · apply h
    have ha0 : a.length = 0 := by omega
    cases a with
    | mk data => cases data with
      | nil => rfl
      | cons c cs => simp [String.length] at ha0
  · apply h
    have hb0 : b.length = 0 := by omega
    cases b with
    | mk data => cases data with
      | nil => rfl
      | cons c cs => simp [String.length] at hb0

/-- C4 counterexample.  Components named `B_2`, `B`, `B`: the third
component's identifier collides with the first's (`id_B_2` twice), so
two node statements share one rendering identifier and the claimed
all-graph distinctness fails. -/
theorem mermaid_identifier_collision_example :
    mermaidAssignedIds
        [mkComp "B_2" "Gain", mkComp "B" "Gain", mkComp "B" "Gain"] "T" =
      ["id_B_2", "id_B", "id_B_2"] ∧
    ¬ (mermaidAssignedIds
        [mkComp "B_2" "Gain", mkComp "B" "Gain", mkComp "B" "Gain"] "T").Nodup ∧
    json_to_mermaid dupIdGraph "T" =
      "graph LR\n    id_B_2[\"B_2\"]\n    id_B[\"B\"]\n    id_B_2[\"B\"]" := by
  refine ⟨by decide, by decide, by decide⟩

/-- C4 amended.  Duplicate-name resolution: a collision with an
already-assigned identifier is repaired by suffixing the positional
index, which makes the identifiers of any two-component graph distinct
— in particular two components both named `Pump` get the two distinct
node statements `id_Pump` and `id_Pump_1` — but the suffixed identifier
is not itself checked for freshness, so distinctness is not guaranteed
beyond two components. -/
theorem mermaid_two_component_ids_distinct (c1 c2 : Jval) (now : String) :
    (mermaidAssignedIds [c1, c2] now).Nodup ∧
    json_to_mermaid pumpGraph "T" =
      "graph LR\n    id_Pump[\"Pump\"]\n    id_Pump_1[\"Pump\"]" := by
  refine ⟨?_, by decide⟩
  simp only [mermaidAssignedIds, mermaidNodesGo, Nat.zero_add]
  rcases h1 : mermaidComp now 0 c1 [] with m1 | ⟨l1, s1, n1⟩
  · rcases h2 : mermaidComp now 1 c2 [] with m2 | ⟨l2, s2, n2⟩
    · simp [h2]
    · simp [h2]
  · rcases h2 : mermaidComp now 1 c2 n1 with m2 | ⟨l2, s2, n2⟩
    · simp [h2]
    · obtain ⟨⟨raw1, hn1⟩, _⟩ := mermaidComp_ok_spec now 0 c1 [] l1 s1 n1 h1
      obtain ⟨_, s0, hcase⟩ := mermaidComp_ok_spec now 1 c2 n1 l2 s2 n2 h2
      have hn1' : n1 = [(s1, raw1)] := by rw [hn1]; rfl
      have hs1s2 : s1 ≠ s2 := by
        rcases hcase with ⟨hd, hsid⟩ | ⟨hd, hsid⟩
        · have hs0 : s1 = s0 := by
            rw [hn1'] at hd
            simpa [dictHas] using hd
          rw [hsid, ← hs0]
          exact ne_append_append s1 "_" (toString 1) (Or.inl (by decide))
        · have hs0 : s1 ≠ s0 := by
            rw [hn1'] at hd
            simpa [dictHas] using hd
          rw [hsid]
          exact hs0
      simp [h2, hs1s2]

/-- C5 counterexample.  Destination base name `B` matches no component
name (the only component is `B!`), yet the Diagram Renderer does not
omit the edge: endpoint resolution goes by sanitized identifier first
and `sanitize_id` maps both `B!` and `B` to `id_B`, so the edge
`id_B --> id_B` is emitted. -/
theorem mermaid_dangling_resolved_by_sanitized_id :
    json_to_mermaid sanitizeCollisionGraph "T" =
      "graph LR\n    id_B[\"B!\"]\n    id_B --> id_B" ∧
    ("B" : String) ≠ "B!" ∧
    sanitize_id "B!" "T" = sanitize_id "B" "T" := by
  refine ⟨by decide, by decide, by decide⟩

/-- C5 amended.  Dangling-connection tolerance: a connection whose
endpoints resolve neither by sanitized identifier nor by raw-name
lookup is omitted from the diagram without omitting any node (the
skipped connection contributes nothing to the edge list, and nodes are
emitted before connections are examined), while the Build-Script
Renderer emits the fault-isolated connect statement with the `/port`
suffix preserved regardless of whether the endpoints name existing
components — shown in full on the one-component `A` graph with the
dangling connection `A/1 → B/1`. -/
theorem dangling_connection_tolerance :
    json_to_mermaid danglingGraph "T" = "graph LR\n    id_A[\"A\"]" ∧
    json_to_matlab danglingGraph "TS" =
      "% Auto-Generated MBD Build Script for: S\n% Generated on: TS\n% ==========================================\n\n% Close all systems and clear workspace\nbdclose all; clear; clc;\n\n% Create new system\nnew_system('S');\nopen_system('S');\n\n% ========================================== \n% Add Blocks\n% ==========================================\n\n% Adding Gain: A\ntry\n    add_block('simulink/Math Operations/Gain', 'S/A');\n    set_param('S/A', 'Position', [100, 100, 180, 140]);\ncatch ME\n    warning('Failed to add block A: %s', ME.message);\nend\n\n% ==========================================\n% Connect Blocks\n% ==========================================\ntry\n    add_line('S', 'A/1', 'B/1', 'autorouting', 'on');\ncatch ME\n    warning('Connection failed A/1 -> B/1: %s', ME.message);\nend\n\n% ==========================================\n% Save and Display\n% ==========================================\nsave_system('S');\nfprintf('Model S created successfully!\\n');" ∧
    matlabConn "S" 0 (mkConn "A/1" "B/1") =
      ["try",
       "    add_line('S', 'A/1', 'B/1', 'autorouting', 'on');",
       "catch ME",
       "    warning('Connection failed A/1 -> B/1: %s', ME.message);",
       "end"] ∧
    (∀ (now : String) (c : Jval) (rest : List Jval)
        (nids : List (String × Jval)),
      mermaidConn now c nids = .ok none →
      mermaidConnsGo now (c :: rest) nids = mermaidConnsGo now rest nids) := by
  refine ⟨by decide, by decide, by decide, ?_⟩
  intro now c rest nids h
  simp only [mermaidConnsGo, h]

/-- Witness for C5: a connection to entirely unknown endpoints,
resolved by neither route, contributes nothing to the edge list. -/
theorem dangling_connection_tolerance_witness :
    mermaidConnsGo "T" [mkConn "X/1" "Y/1"] [("id_A", Jval.str "A")] =
      mermaidConnsGo "T" [] [("id_A", Jval.str "A")] :=
  dangling_connection_tolerance.2.2.2 "T" (mkConn "X/1" "Y/1") []
    [("id_A", Jval.str "A")] rfl

/-- The component loop of the validator reports exactly the first
component failing the specification's element check. -/
theorem checkComponents_eq_spec (i : Nat) (cs : List Jval) :
    checkComponents i cs =
      (specFirstBadComp i cs).map (fun p => specCompMsg p.1 p.2) := by
  induction cs generalizing i with
  | nil => rfl
  | cons c rest ih =>
    cases c with
    | obj kvs =>
      by_cases hn : jhas kvs "name" = true
      · by_cases ht : jhas kvs "type" = true
        · simp [checkComponents, specFirstBadComp, specComponentOk, hn, ht, ih]
        · simp [checkComponents, specFirstBadComp, specComponentOk, specCompMsg, hn, ht]
      · simp [checkComponents, specFirstBadComp, specComponentOk, specCompMsg, hn]
    | null => simp [checkComponents, specFirstBadComp, specComponentOk, specCompMsg]
    | bool b => simp [checkComponents, specFirstBadComp, specComponentOk, specCompMsg]
    | num n => simp [checkComponents, specFirstBadComp, specComponentOk, specCompMsg]
    | str s => simp [checkComponents, specFirstBadComp, specComponentOk, specCompMsg]
    | arr xs => simp [checkComponents, specFirstBadComp, specComponentOk, specCompMsg]

/-- No component fails check 4 exactly when all components pass it. -/
theorem specFirstBadComp_none_iff (i : Nat) (cs : List Jval) :
    specFirstBadComp i cs = none ↔ cs.all specComponentOk = true := by
  induction cs generalizing i with
  | nil => simp [specFirstBadComp]
  | cons c rest ih =>
    by_cases h : specComponentOk c = true
    · simp [specFirstBadComp, h, ih]
    · simp [specFirstBadComp, h]

/-- Lookup of the replaced key after `jobjSet`. -/
theorem jlook_jobjSet_same : ∀ (kvs : JObj) (k : String) (v : Jval),
    jhas kvs k = true → jlook (jobjSet kvs k v) k = some v
  | .nil, k, v, h => by simp [jhas, jlook] at h
  | .cons k1 v1 tl, k, v, h => by
    by_cases h1 : k1 = k
    · simp [jobjSet, h1, jlook]
    · simp only [jobjSet, if_neg h1, jlook]
      exact jlook_jobjSet_same tl k v (by simpa [jhas, jlook, h1] using h)

/-- Lookup of a different key is unchanged by `jobjSet`. -/
theorem jlook_jobjSet_other : ∀ (kvs : JObj) (k k' : String) (v : Jval),
    k' ≠ k → jlook (jobjSet kvs k v) k' = jlook kvs k'
  | .nil, _, _, _, _ => rfl
  | .cons k1 v1 tl, k, k', v, h => by
    by_cases h1 : k1 = k
    · subst h1
      have h2 : k1 ≠ k' := fun hEq => h (hEq ▸ rfl)
      simp [jobjSet, jlook, h2]
    · by_cases h2 : k1 = k'
      · simp [jobjSet, h1, jlook, h2, h]
      · simp [jobjSet, h1, jlook, h2, jlook_jobjSet_other tl k k' v h]

/-- `jobjSet` with an absent key is the identity. -/
theorem jobjSet_absent : ∀ (kvs : JObj) (k : String) (v : Jval),
    jhas kvs k = false → jobjSet kvs k v = kvs
  | .nil, _, _, _ => rfl
  | .cons k1 v1 tl, k, v, h => by
    by_cases h1 : k1 = k
    · simp [jhas, jlook, h1] at h
    · simp only [jobjSet, if_neg h1]
      rw [jobjSet_absent tl k v (by simpa [jhas, jlook, h1] using h)]

/-- Validation success agrees with the specification's five checks. -/
theorem validate_ok_iff_spec (d : Jval) :
    (validate_json_structure d).1 = true ↔ validateSpecOk d = true := by
  cases d with
  | obj kvs =>
    by_cases hsn : jhas kvs "system_name" = true
    · rcases hcomp : jlook kvs "components" with _ | v
      · simp [validate_json_structure, validateSpecOk, hsn, hcomp]
      · cases v with
        | arr cs =>
          rcases hchk : checkComponents 0 cs.toList with _ | msg
          · have hall : cs.toList.all specComponentOk = true := by
              rw [checkComponents_eq_spec] at hchk
              exact (specFirstBadComp_none_iff 0 cs.toList).mp
                (by simpa using hchk)
            rcases hconn : jlook kvs "connections" with _ | w
            · simp [validate_json_structure, validateSpecOk, hsn, hcomp, hchk,
                hconn, hall]
            · cases w <;>
                simp [validate_json_structure, validateSpecOk, hsn, hcomp, hchk,
                  hconn, hall]
          · have hnall : ¬ cs.toList.all specComponentOk = true := by
              intro hall
              have := (specFirstBadComp_none_iff 0 cs.toList).mpr hall
              rw [checkComponents_eq_spec, this] at hchk
              simp at hchk
            rcases hconn : jlook kvs "connections" with _ | w
            · simp [validate_json_structure, validateSpecOk, hsn, hcomp, hchk,
                hconn, hnall]
            · cases w <;>
                simp [validate_json_structure, validateSpecOk, hsn, hcomp, hchk,
                  hconn, hnall]
        | null => simp [validate_json_structure, validateSpecOk, hsn, hcomp]
        | bool b => simp [validate_json_structure, validateSpecOk, hsn, hcomp]
        | num n => simp [validate_json_structure, validateSpecOk, hsn, hcomp]
        | str s => simp [validate_json_structure, validateSpecOk, hsn, hcomp]
        | obj kvs2 => simp [validate_json_structure, validateSpecOk, hsn, hcomp]
    · simp [validate_json_structure, validateSpecOk, hsn]
  | null => simp [validate_json_structure, validateSpecOk]
  | bool b => simp [validate_json_structure, validateSpecOk]
  | num n => simp [validate_json_structure, validateSpecOk]
  | str s => simp [validate_json_structure, validateSpecOk]
  | arr xs => simp [validate_json_structure, validateSpecOk]

/-- C7.  Validator contract: success is equivalent to the five checks
of §4.2; the checks run in order, short-circuiting with the
human-readable reason of the first failure (non-object, missing
system-name field, missing or non-sequence components field, first
offending component element, non-sequence connections field); and no
element-level check is applied to `connections` — replacing its
elements by any others never changes the verdict.  The embedding is a
total function, so the validator never raises. -/
theorem validator_contract :
    (∀ d : Jval, (validate_json_structure d).1 = true ↔ validateSpecOk d = true) ∧
    (∀ d : Jval, (∀ kvs, d ≠ .obj kvs) →
      validate_json_structure d = (false, "Response is not a JSON object")) ∧
    (∀ kvs : JObj, jhas kvs "system_name" = false →
      validate_json_structure (.obj kvs) = (false, "Missing 'system_name' field")) ∧
    (∀ kvs : JObj, jhas kvs "system_name" = true →
      jlook kvs "components" = none →
      validate_json_structure (.obj kvs) = (false, "Missing 'components' field")) ∧
    (∀ (kvs : JObj) (v : Jval), jhas kvs "system_name" = true →
      jlook kvs "components" = some v → (∀ cs, v ≠ .arr cs) →
      validate_json_structure (.obj kvs) = (false, "'components' must be a list")) ∧
    (∀ (kvs : JObj) (cs : JArr) (i : Nat) (c : Jval),
      jhas kvs "system_name" = true →
      jlook kvs "components" = some (.arr cs) →
      specFirstBadComp 0 cs.toList = some (i, c) →
      validate_json_structure (.obj kvs) = (false, specCompMsg i c)) ∧
    (∀ (kvs : JObj) (cs : JArr) (w : Jval),
      jhas kvs "system_name" = true →
      jlook kvs "components" = some (.arr cs) →
      cs.toList.all specComponentOk = true →
      jlook kvs "connections" = some w → (∀ ws, w ≠ .arr ws) →
      validate_json_structure (.obj kvs) = (false, "'connections' must be a list")) ∧
    (∀ (kvs : JObj) (cs cs' : List Jval),
      validate_json_structure (.obj (jobjSet kvs "connections" (jarr cs))) =
        validate_json_structure (.obj (jobjSet kvs "connections" (jarr cs')))) := by
  refine ⟨validate_ok_iff_spec, ?_, ?_, ?_, ?_, ?_, ?_, ?_⟩
  · intro d h
    cases d with
    | obj kvs => exact absurd rfl (h kvs)
    | null => rfl
    | bool b => rfl
    | num n => rfl
    | str s => rfl
    | arr xs => rfl
  · intro kvs h
    simp [validate_json_structure, h]
  · intro kvs h hc
    simp [validate_json_structure, h, hc]
  · intro kvs v h hc hv
    cases v with
    | arr cs => exact absurd rfl (hv cs)
    | null => simp [validate_json_structure, h, hc]
    | bool b => simp [validate_json_structure, h, hc]
    | num n => simp [validate_json_structure, h, hc]
    | str s => simp [validate_json_structure, h, hc]
    | obj kvs2 => simp [validate_json_structure, h, hc]
  · intro kvs cs i c h hc hbad
    have hchk : checkComponents 0 cs.toList = some (specCompMsg i c) := by
      rw [checkComponents_eq_spec, hbad]
      rfl
    simp [validate_json_structure, h, hc, hchk]
  · intro kvs cs w h hc hall hw hnarr
    have hchk : checkComponents 0 cs.toList = none := by
      rw [checkComponents_eq_spec,
        (specFirstBadComp_none_iff 0 cs.toList).mpr hall]
      rfl
    cases w with
    | arr ws => exact absurd rfl (hnarr ws)
    | null => simp [validate_json_structure, h, hc, hchk, hw]
    | bool b => simp [validate_json_structure, h, hc, hchk, hw]
    | num n => simp [validate_json_structure, h, hc, hchk, hw]
    | str s => simp [validate_json_structure, h, hc, hchk, hw]
    | obj kvs2 => simp [validate_json_structure, h, hc, hchk, hw]
  · intro kvs cs cs'
    by_cases hpres : jhas kvs "connections" = true
    · have e1 : jlook (jobjSet kvs "connections" (jarr cs)) "system_name" =
          jlook kvs "system_name" := jlook_jobjSet_other _ _ _ _ (by decide)
      have e2 : jlook (jobjSet kvs "connections" (jarr cs')) "system_name" =
          jlook kvs "system_name" := jlook_jobjSet_other _ _ _ _ (by decide)
      have e3 : jlook (jobjSet kvs "connections" (jarr cs)) "components" =
          jlook kvs "components" := jlook_jobjSet_other _ _ _ _ (by decide)
      have e4 : jlook (jobjSet kvs "connections" (jarr cs')) "components" =
          jlook kvs "components" := jlook_jobjSet_other _ _ _ _ (by decide)
      have e5 : jlook (jobjSet kvs "connections" (jarr cs)) "connections" =
          some (jarr cs) := jlook_jobjSet_same _ _ _ hpres
      have e6 : jlook (jobjSet kvs "connections" (jarr cs')) "connections" =
          some (jarr cs') := jlook_jobjSet_same _ _ _ hpres
      simp only [jarr] at e1 e2 e3 e4 e5 e6
      simp only [validate_json_structure, jhas, jarr, e1, e2, e3, e4, e5, e6]
    · have hab : jhas kvs "connections" = false := by simpa using hpres
      rw [jobjSet_absent _ _ _ hab, jobjSet_absent _ _ _ hab]

/-- Witness for C7: a graph whose first component lacks `type` is
rejected with the reason naming that component. -/
theorem validator_contract_witness :
    validate_json_structure
        (jobj [("system_name", .str "S"),
               ("components", jarr [jobj [("name", .str "A")]])]) =
      (false, "Component 0 missing 'type'") :=
  validator_contract.2.2.2.2.2.1
    (JObj.ofList [("system_name", .str "S"),
                  ("components", jarr [jobj [("name", .str "A")]])])
    (JArr.ofList [jobj [("name", .str "A")]]) 0
    (jobj [("name", .str "A")]) (by decide) rfl rfl

/-- The retry loop's output depends only on the oracle's answers at the
attempts within the budget, all queried with the one fixed prompt. -/
theorem getAiGo_congr (jl : String → Option Jval)
    (o o' : Nat → String → Except String String) (p mn : String)
    (mr : Nat) :
    ∀ (r a : Nat), (∀ i, a ≤ i → i < a + r → o i p = o' i p) →
      getAiGo jl o p mn mr a r = getAiGo jl o' p mn mr a r := by
  intro r
  induction r with
  | zero => intro a h; rfl
  | succ n ih =>
    intro a h
    have ha : o a p = o' a p := h a (Nat.le_refl a) (by omega)
    simp only [getAiGo, ha]
    cases attemptOnce jl (o' a p) with
    | ok v => rfl
    | error m => exact ih (a + 1) (fun i h1 h2 => h i (by omega) (by omega))

/-- The retry loop returns the first successful attempt's graph with
its success history entry. -/
theorem getAiGo_first_success (jl : String → Option Jval)
    (o : Nat → String → Except String String) (p mn : String) (mr : Nat) :
    ∀ (r a k : Nat) (v : Jval), k < r →
      (∀ j, j < k → ∃ m, attemptOnce jl (o (a + j) p) = .error m) →
      attemptOnce jl (o (a + k) p) = .ok v →
      getAiGo jl o p mn mr a r = (some v, [.success mn (a + k + 1)]) := by
  intro r
  induction r with
  | zero => intro a k v hk; omega
  | succ n ih =>
    intro a k v hk hfail hok
    cases k with
    | zero =>
      simp only [Nat.add_zero] at hok
      simp only [getAiGo, hok, Nat.add_zero]
    | succ k1 =>
      obtain ⟨m, hm⟩ := hfail 0 (Nat.succ_pos k1)
      simp only [Nat.add_zero] at hm
      simp only [getAiGo, hm]
      have := ih (a + 1) k1 v (by omega)
        (fun j hj => by
          have := hfail (j + 1) (by omega)
          simpa [Nat.add_assoc, Nat.add_comm 1 j] using this)
        (by
          have : a + 1 + k1 = a + (k1 + 1) := by omega
          rw [this]
          exact hok)
      rw [this]
      have : a + 1 + k1 + 1 = a + (k1 + 1) + 1 := by omega
      rw [this]

/-- After every attempt in the budget fails, the loop returns no graph
and records the failed run. -/
theorem getAiGo_all_fail (jl : String → Option Jval)
    (o : Nat → String → Except String String) (p mn : String) (mr : Nat) :
    ∀ (r a : Nat),
      (∀ j, j < r → ∃ m, attemptOnce jl (o (a + j) p) = .error m) →
      getAiGo jl o p mn mr a r = (none, [.failure mn mr]) := by
  intro r
  induction r with
  | zero => intro a h; rfl
  | succ n ih =>
    intro a hfail
    obtain ⟨m, hm⟩ := hfail 0 (Nat.succ_pos n)
    simp only [Nat.add_zero] at hm
    simp only [getAiGo, hm]
    exact ih (a + 1) (fun j hj => by
      have := hfail (j + 1) (by omega)
      simpa [Nat.add_assoc, Nat.add_comm 1 j] using this)

/-- C8.  Bounded retry: a run of `get_ai_response` makes at most 3
oracle attempts, each with the identical assembled prompt (conjunct 1:
two oracles that agree on the first three attempts at the one prompt
give identical runs — no other oracle input is consulted); it returns
the extracted-and-validated graph of the first successful attempt,
recording the success with its attempt number (conjunct 2); and after
the 3rd failed attempt — extraction, validation or transport failure
alike — it returns no graph and records the failed run in the history
log (conjunct 3). -/
theorem bounded_retry :
    (∀ (jl : String → Option Jval)
       (o o' : Nat → String → Except String String) (cp rp mn ui it : String),
      (∀ i, i < 3 → o i (fullPrompt cp rp ui it) = o' i (fullPrompt cp rp ui it)) →
      get_ai_response jl o cp rp mn ui it 3 = get_ai_response jl o' cp rp mn ui it 3) ∧
    (∀ (jl : String → Option Jval)
       (o : Nat → String → Except String String) (cp rp mn ui it : String)
       (k : Nat) (v : Jval),
      k < 3 →
      (∀ j, j < k → ∃ m, attemptOnce jl (o j (fullPrompt cp rp ui it)) = .error m) →
      attemptOnce jl (o k (fullPrompt cp rp ui it)) = .ok v →
      get_ai_response jl o cp rp mn ui it 3 = (some v, [.success mn (k + 1)])) ∧
    (∀ (jl : String → Option Jval)
       (o : Nat → String → Except String String) (cp rp mn ui it : String),
      (∀ j, j < 3 → ∃ m, attemptOnce jl (o j (fullPrompt cp rp ui it)) = .error m) →
      get_ai_response jl o cp rp mn ui it 3 = (none, [.failure mn 3])) := by
  refine ⟨?_, ?_, ?_⟩
  · intro jl o o' cp rp mn ui it h
    exact getAiGo_congr jl o o' (fullPrompt cp rp ui it) mn 3 3 0
      (fun i h1 h2 => h i (by omega))
  · intro jl o cp rp mn ui it k v hk hfail hok
    have := getAiGo_first_success jl o (fullPrompt cp rp ui it) mn 3 3 0 k v hk
      (fun j hj => by simpa using hfail j hj) (by simpa using hok)
    simpa [get_ai_response] using this
  · intro jl o cp rp mn ui it hfail
    exact getAiGo_all_fail jl o (fullPrompt cp rp ui it) mn 3 3 0
      (fun j hj => by simpa using hfail j hj)

/-- Witness for C8: a transport failure on attempt 0 followed by a
parseable, valid reply on attempt 1 yields that graph with the success
entry for attempt 2. -/
theorem bounded_retry_witness :
    get_ai_response
        (fun s => if s = "g" then
          some (jobj [("system_name", .str "S"), ("components", jarr [])])
          else none)
        (fun i _ => if i = 0 then .error "network" else .ok "g")
        "CP" "RP" "m" "u" "requirements" 3 =
      (some (jobj [("system_name", .str "S"), ("components", jarr [])]),
       [.success "m" 2]) :=
  bounded_retry.2.1
    (fun s => if s = "g" then
      some (jobj [("system_name", .str "S"), ("components", jarr [])])
      else none)
    (fun i _ => if i = 0 then .error "network" else .ok "g")
    "CP" "RP" "m" "u" "requirements" 1
    (jobj [("system_name", .str "S"), ("components", jarr [])])
    (by omega)
    (fun j hj => ⟨"network", by
      have hj0 : j = 0 := by omega
      subst hj0
      rfl⟩)
    rfl

/-- Stripping yields the empty string exactly when every character is
whitespace. -/
theorem pyStrip_eq_empty_iff (s : String) :
    pyStrip s = "" ↔ s.toList.all pySpace = true := by
  have h1 : pyStrip s = "" ↔
      ((s.toList.dropWhile pySpace).reverse.dropWhile pySpace).reverse = [] := by
    constructor
    · intro h
      have := congrArg String.toList h
      simpa [pyStrip] using this
    · intro h
      have h2 : (List.dropWhile pySpace (List.dropWhile pySpace s.data).reverse).reverse = [] := h
      simp [pyStrip, h2]
  rw [h1, List.reverse_eq_nil_iff, List.dropWhile_eq_nil_iff]
  constructor
  · intro h
    have hd : s.toList.dropWhile pySpace = [] := by
      cases he : s.toList.dropWhile pySpace with
      | nil => rfl
      | cons c0 t =>
        exfalso
        have hlen : 0 < (s.toList.dropWhile pySpace).length := by
          rw [he]
          simp
        have hns := List.dropWhile_get_zero_not (p := pySpace) s.toList hlen
        have hget : (s.toList.dropWhile pySpace).get ⟨0, hlen⟩ = c0 := by
          have he2 : List.dropWhile pySpace s.data = c0 :: t := he
          simp only [List.get_eq_getElem]
          rw [List.getElem_eq_iff]
          simp [he2]
        rw [hget] at hns
        have hmem : c0 ∈ (s.toList.dropWhile pySpace).reverse := by
          rw [he]
          simp
        exact hns (by simpa using h c0 hmem)
    rw [List.all_eq_true]
    intro c hc
    exact List.dropWhile_eq_nil_iff.mp hd c hc
  · intro h c hc
    have hc2 : c ∈ s.toList.dropWhile pySpace := List.mem_reverse.mp hc
    have hc3 : c ∈ s.toList := List.dropWhile_subset _ hc2
    exact List.all_eq_true.mp h c hc3

/-- `sanitize_id` is independent of the clock on inputs that strip to a
non-empty string. -/
theorem sanitize_id_indep (s n n' : String) (h : pyStrip s ≠ "") :
    sanitize_id s n = sanitize_id s n' := by
  have hs : ¬((s = "" || pyStrip s = "") = true) := by
    simp only [Bool.or_eq_true, decide_eq_true_eq]
    rintro (h1 | h2)
    · exact h (by rw [h1]; rfl)
    · exact h h2
  simp only [sanitize_id]
  rw [if_neg hs, if_neg hs]

/-- On a non-blank input whose character-stripping is empty, the
fallback is the deterministic content hash of the original string. -/
theorem sanitize_id_content_hash (s n : String) (h1 : pyStrip s ≠ "")
    (h2 : reSubNonWord s = "") :
    sanitize_id s n = "id_" ++ (md5hex s).take 8 := by
  have hs : ¬((s = "" || pyStrip s = "") = true) := by
    simp only [Bool.or_eq_true, decide_eq_true_eq]
    rintro (ha | hb)
    · exact h1 (by rw [ha]; rfl)
    · exact h1 hb
  simp only [sanitize_id]
  rw [if_neg hs]
  simp only [h2]
  rfl

/-- `sanitizeIdVal` is independent of the clock on `valDet` values. -/
theorem sanitizeIdVal_indep (v : Jval) (n n' : String) (h : valDet v = true) :
    sanitizeIdVal v n = sanitizeIdVal v n' := by
  unfold valDet at h
  by_cases ht : pyTruthy v = true
  · rw [if_pos ht] at h
    cases v with
    | str s =>
      simp only [sanitizeIdVal, ht, Bool.not_true, Bool.false_eq_true, if_false]
      rw [sanitize_id_indep s n n' (by simpa using h)]
    | null => simp [sanitizeIdVal, ht]
    | bool b => simp [sanitizeIdVal, ht]
    | num m => simp [sanitizeIdVal, ht]
    | arr xs => simp [sanitizeIdVal, ht]
    | obj kvs => simp [sanitizeIdVal, ht]
  · rw [if_neg ht] at h
    exact absurd h (by simp)

/-- The default component name is non-blank. -/
theorem default_name_det (idx : Nat) :
    valDet (.str ("Component_" ++ toString idx)) = true := by
  have hne : ("Component_" ++ toString idx) ≠ "" :=
    append_ne_empty_left _ _ (by decide)
  have hstrip : pyStrip ("Component_" ++ toString idx) ≠ "" := by
    rw [Ne, pyStrip_eq_empty_iff]
    intro hall
    have hC : 'C' ∈ ("Component_" ++ toString idx).toList := by
      show 'C' ∈ "Component_".toList ++ (toString idx).toList
      simp
    have := List.all_eq_true.mp hall 'C' hC
    exact absurd this (by decide)
  simp [valDet, pyTruthy, hne, hstrip]

/-- One component's node-loop step is independent of the clock when its
name satisfies `nameDet`. -/
theorem mermaidComp_indep (idx : Nat) (c : Jval)
    (nids : List (String × Jval)) (n n' : String) (h : nameDet c = true) :
    mermaidComp n idx c nids = mermaidComp n' idx c nids := by
  cases c with
  | obj kvs =>
    have hval : valDet (jget kvs "name" (.str ("Component_" ++ toString idx))) = true := by
      have h2 : (match jlook kvs "name" with
          | none => true
          | some v => valDet v) = true := h
      rcases hl : jlook kvs "name" with _ | v
      · simp only [jget, hl, Option.getD]
        exact default_name_det idx
      · rw [hl] at h2
        simpa [jget, hl] using h2
    simp only [mermaidComp]
    rw [sanitizeIdVal_indep _ n n' hval]
  | null => rfl
  | bool b => rfl
  | num m => rfl
  | str s => rfl
  | arr xs => rfl

/-- The node loop is independent of the clock when every component's
name satisfies `nameDet`. -/
theorem mermaidNodesGo_indep (n n' : String) :
    ∀ (comps : List Jval) (idx : Nat) (lines : List String)
      (nids : List (String × Jval)) (ids : List String),
      comps.all nameDet = true →
      mermaidNodesGo n idx comps lines nids ids =
        mermaidNodesGo n' idx comps lines nids ids
  | [], _, _, _, _, _ => rfl
  | c :: rest, idx, lines, nids, ids, h => by
    have hc : nameDet c = true := by
      have := List.all_eq_true.mp h c (List.mem_cons_self c rest)
      simpa using this
    have hrest : rest.all nameDet = true := by
      rw [List.all_eq_true]
      intro x hx
      exact List.all_eq_true.mp h x (List.mem_cons_of_mem c hx)
    simp only [mermaidNodesGo]
    rw [mermaidComp_indep idx c nids n n' hc]
    cases mermaidComp n' idx c nids with
    | ok t =>
      obtain ⟨l, sid, nids2⟩ := t
      exact mermaidNodesGo_indep n n' rest (idx + 1) (lines ++ [l]) nids2
        (ids ++ [sid]) hrest
    | error m =>
      exact mermaidNodesGo_indep n n' rest (idx + 1) lines nids ids hrest

/-- One connection's loop step is independent of the clock when its
endpoints satisfy `connDet`. -/
theorem mermaidConn_indep (c : Jval) (nids : List (String × Jval))
    (n n' : String) (h : connDet c = true) :
    mermaidConn n c nids = mermaidConn n' c nids := by
  cases c with
  | obj kvs =>
    by_cases hsrc : baseName (pyStr (jget kvs "source" (.str ""))) = ""
    · simp [mermaidConn, hsrc]
    · by_cases hdst : baseName (pyStr (jget kvs "destination" (.str ""))) = ""
      · simp [mermaidConn, hsrc, hdst]
      · have hstrips : pyStrip (baseName (pyStr (jget kvs "source" (.str "")))) ≠ "" ∧
            pyStrip (baseName (pyStr (jget kvs "destination" (.str "")))) ≠ "" := by
          unfold connDet at h
          simp only [Bool.or_eq_true, Bool.and_eq_true, decide_eq_true_eq,
            bne_iff_ne] at h
          rcases h with (h | h) | h
          · exact absurd h hsrc
          · exact absurd h hdst
          · exact h
        simp only [mermaidConn]
        rw [sanitize_id_indep _ n n' hstrips.1, sanitize_id_indep _ n n' hstrips.2]
  | null => rfl
  | bool b => rfl
  | num m => rfl
  | str s => rfl
  | arr xs => rfl

/-- The connection loop is independent of the clock when every
connection satisfies `connDet`. -/
theorem mermaidConnsGo_indep (n n' : String) :
    ∀ (conns : List Jval) (nids : List (String × Jval)),
      conns.all connDet = true →
      mermaidConnsGo n conns nids = mermaidConnsGo n' conns nids
  | [], _, _ => rfl
  | c :: rest, nids, h => by
    have hc : connDet c = true := by
      have := List.all_eq_true.mp h c (List.mem_cons_self c rest)
      simpa using this
    have hrest : rest.all connDet = true := by
      rw [List.all_eq_true]
      intro x hx
      exact List.all_eq_true.mp h x (List.mem_cons_of_mem c hx)
    simp only [mermaidConnsGo]
    rw [mermaidConn_indep c nids n n' hc,
      mermaidConnsGo_indep n n' rest nids hrest]

/-- Unfolding of `joinNl` at a cons with a nonempty tail. -/
theorem joinNl_cons_ne (a : String) (l : List String) (h : l ≠ []) :
    joinNl (a :: l) = a ++ "\n" ++ joinNl l := by
  cases l with
  | nil => exact absurd rfl h
  | cons b t => rfl

/-- The tail of the build script is never the empty list. -/
theorem matlabTail_ne_nil (mn : String) (comps conns : List Jval) :
    matlabTail mn comps conns ≠ [] := by
  simp [matlabTail]

/-- The Diagram Renderer is independent of the clock on inputs whose
names and connection endpoints satisfy the determinism predicates. -/
theorem json_to_mermaid_indep (d : Jval) (n n' : String)
    (h : mermaidDetInput d = true) :
    json_to_mermaid d n = json_to_mermaid d n' := by
  by_cases hv : (validate_json_structure d).1 = false
  · rw [mermaid_invalid_eq_placeholder d n hv,
      mermaid_invalid_eq_placeholder d n' hv]
  · cases d with
    | obj kvs =>
      have hv2 : (validate_json_structure (.obj kvs)).1 = true := by
        cases hb : (validate_json_structure (.obj kvs)).1
        · exact absurd hb hv
        · rfl
      have h2 : (match jget kvs "components" (jarr []) with
           | .arr cs => cs.toList.all nameDet
           | _ => true) = true ∧
          (match jget kvs "connections" (jarr []) with
           | .arr cs => cs.toList.all connDet
           | _ => true) = true := by
        have h3 : mermaidDetInput (.obj kvs) = true := h
        unfold mermaidDetInput at h3
        simpa [Bool.and_eq_true] using h3
      have compsAll : (match jget kvs "components" (jarr []) with
          | .arr cs => cs.toList
          | _ => ([] : List Jval)).all nameDet = true := by
        rcases hcm : jget kvs "components" (jarr []) with _ | _ | _ | _ | cs | _ <;>
          simp_all
      have connsAll : (match jget kvs "connections" (jarr []) with
          | .arr cs => cs.toList
          | _ => ([] : List Jval)).all connDet = true := by
        rcases hcn : jget kvs "connections" (jarr []) with _ | _ | _ | _ | cs | _ <;>
          simp_all
      simp only [json_to_mermaid, hv2, Bool.not_true, Bool.false_eq_true, if_false]
      rcases hres : mermaidNodesGo n' 0 (match jget kvs "components" (jarr []) with
          | .arr cs => cs.toList
          | _ => ([] : List Jval)) [] [] [] with ⟨L, N, I⟩
      have hnodes : mermaidNodesGo n 0 (match jget kvs "components" (jarr []) with
          | .arr cs => cs.toList
          | _ => ([] : List Jval)) [] [] [] = (L, N, I) := by
        rw [mermaidNodesGo_indep n n' _ 0 [] [] [] compsAll, hres]
      rw [hnodes]
      rw [mermaidConnsGo_indep n n' _ _ connsAll]
    | null => exact absurd rfl hv
    | bool b => exact absurd rfl hv
    | num m => exact absurd rfl hv
    | str s => exact absurd rfl hv
    | arr xs => exact absurd rfl hv

/-- Either the build script is clock-independent (the error-script
paths), or the timestamp comment line is its only clock-dependent
substring: a fixed prefix and suffix surround the formatted time. -/
theorem json_to_matlab_timestamp_only (d : Jval) :
    (∀ n n', json_to_matlab d n = json_to_matlab d n') ∨
    ∃ p q, ∀ t, json_to_matlab d t = p ++ ("% Generated on: " ++ t) ++ q := by
  cases d with
  | obj kvs =>
    rcases hs : jget kvs "system_name" (.str "GenAI_Model")
      with _ | b | m | sn | xs | kvs2
    case str =>
      rcases hc : pyIterate (jget kvs "components" (jarr [])) with msg | comps
      · left
        intro n n'
        simp [json_to_matlab, hs, matlabBody, hc]
      · rcases hk : pyIterate (jget kvs "connections" (jarr [])) with msg2 | conns
        · left
          intro n n'
          simp [json_to_matlab, hs, matlabBody, hc, hk]
        · right
          refine ⟨"% Auto-Generated MBD Build Script for: " ++
              matlabModelName sn ++ "\n",
            "\n" ++ joinNl (matlabTail (matlabModelName sn) comps conns), ?_⟩
          intro t
          simp only [json_to_matlab, hs, matlabBody, hc, hk]
          rw [joinNl_cons_ne _ _ (by simp),
            joinNl_cons_ne _ _ (matlabTail_ne_nil _ _ _)]
          simp [String.append_assoc]
    all_goals left
    all_goals intro n n'
    all_goals simp [json_to_matlab, hs]
  | null => left; intro n n'; rfl
  | bool b => left; intro n n'; rfl
  | num m => left; intro n n'; rfl
  | str s => left; intro n n'; rfl
  | arr xs => left; intro n n'; rfl

/-- C1 counterexample.  Purity fails on empty and whitespace-only
input: the fallback hashes `str(datetime.now())`, not the original
string, so two invocations at different clock readings disagree — for
`sanitize_id` on the empty string, on the no-break space `U+00A0`
(stripped by Python's Unicode-aware `str.strip()`), and for the Diagram
Renderer on a graph whose component is named by a single space (the
diagram carries no timestamp line at all). -/
theorem sanitize_time_hash_counterexample :
    sanitize_id "" "2026-10-12 10:00:00.000001" ≠
      sanitize_id "" "2026-10-12 10:00:00.000002" ∧
    sanitize_id "\u00A0" "2026-10-12 10:00:00.000001" ≠
      sanitize_id "\u00A0" "2026-10-12 10:00:00.000002" ∧
    json_to_mermaid blankNameGraph "2026-10-12 10:00:00.000001" ≠
      json_to_mermaid blankNameGraph "2026-10-12 10:00:00.000002" := by
  have h0 : sanitize_id "" "2026-10-12 10:00:00.000001" ≠
      sanitize_id "" "2026-10-12 10:00:00.000002" := by decide
  exact ⟨h0, h0, by decide⟩

/-- C1 amended.  Determinism: `sanitize_id` is a pure function of its
input on every string that strips to a non-empty result, and on such
strings whose character-stripping is empty the fallback is the
deterministic content hash of the original string; but on empty or
whitespace-only input the fallback hashes the current time instead.
Consequently the Diagram Renderer is byte-identical across invocations
on every graph whose component names and connection endpoint base names
are absent, skipped, or non-blank; and the Build-Script Renderer's
timestamp comment line is its only clock-dependent substring. -/
theorem sanitize_renderer_determinism :
    (∀ s n n', pyStrip s ≠ "" → sanitize_id s n = sanitize_id s n') ∧
    (∀ s n, pyStrip s ≠ "" → reSubNonWord s = "" →
      sanitize_id s n = "id_" ++ (md5hex s).take 8) ∧
    (∀ d n n', mermaidDetInput d = true →
      json_to_mermaid d n = json_to_mermaid d n') ∧
    (∀ d : Jval, (∀ n n', json_to_matlab d n = json_to_matlab d n') ∨
      ∃ p q, ∀ t, json_to_matlab d t = p ++ ("% Generated on: " ++ t) ++ q) :=
  ⟨sanitize_id_indep, sanitize_id_content_hash, json_to_mermaid_indep,
    json_to_matlab_timestamp_only⟩

/-- Witness for C1: determinism at the name `Pump`, the content-hash
fallback at `!!!`, and renderer independence on the dangling-connection
graph. -/
theorem sanitize_renderer_determinism_witness :
    sanitize_id "Pump" "a" = sanitize_id "Pump" "b" ∧
    sanitize_id "!!!" "T" = "id_" ++ (md5hex "!!!").take 8 ∧
    json_to_mermaid danglingGraph "a" = json_to_mermaid danglingGraph "b" :=
  ⟨sanitize_renderer_determinism.1 "Pump" "a" "b" (by decide),
   sanitize_renderer_determinism.2.1 "!!!" "T" (by decide) (by decide),
   sanitize_renderer_determinism.2.2.1 danglingGraph "a" "b" (by decide)⟩

end MBD
